import Mathlib

/-!
Verification of the skia-builder pipeline (build-skia.py) and of the Dawn
patching utility (patches/apply_dawn_ios_visionos.py).

The Python sources are shallowly embedded: pure string manipulation becomes
functions on `String` / `List Char`, the process-spawning pipeline becomes a
function from an oracle `World` (results of external tools, file-existence
tests) to a trace of events plus an optional `sys.exit` code.
-/

namespace SkiaBuilder

/-! ## Python string primitives

`pyWS` is the default character class of Python `str.strip`; `startsWithL`,
`occursIn` and `pyReplace` model `str.startswith`, the `in` substring test
and `str.replace` (left-to-right, non-overlapping, all occurrences) on
explicit character lists. -/

def pyWS (c : Char) : Bool :=
  c = ' ' || c = '\t' || c = '\n' || c = '\r' || c = '\x0b' || c = '\x0c'

def pyStripL (l : List Char) : List Char :=
  ((l.dropWhile pyWS).reverse.dropWhile pyWS).reverse

def pyStrip (s : String) : String :=
  String.mk (pyStripL s.data)

def startsWithL : List Char → List Char → Bool
  | [], _ => true
  | _ :: _, [] => false
  | a :: as, b :: bs => a = b && startsWithL as bs

def occursIn (p : List Char) : List Char → Bool
  | [] => p.isEmpty
  | c :: cs => startsWithL p (c :: cs) || occursIn p cs

def pyContains (needle hay : String) : Bool :=
  occursIn needle.data hay.data

def pyReplace (n r : List Char) : List Char → List Char
  | [] => []
  | c :: cs =>
    if startsWithL n (c :: cs) && !n.isEmpty then
      r ++ pyReplace n r (List.drop (n.length - 1) cs)
    else
      c :: pyReplace n r cs
termination_by s => s.length
decreasing_by all_goals (simp [List.length_drop]; try omega)

/-- `str.endswith` on character lists. -/
def endsWithL (suf l : List Char) : Bool := startsWithL suf.reverse l.reverse

/-- `str.startswith` (structural, so that concrete runs evaluate). -/
def strStartsWith (pre s : String) : Bool := startsWithL pre.data s.data

/-- `str.endswith`. -/
def strEndsWith (suf s : String) : Bool := endsWithL suf.data s.data

/-- `str.lower` (the identifiers compared here are ASCII). -/
def pyLower (s : String) : String := String.mk (s.data.map Char.toLower)

/-- Python `s[:-n]`. -/
def strDropRight (n : Nat) (s : String) : String :=
  String.mk (s.data.take (s.data.length - n))

/-- `sep.join(parts)` / `", ".join(...)`. -/
def joinWith (sep : String) : List String → String
  | [] => ""
  | [x] => x
  | x :: xs => x ++ sep ++ joinWith sep xs

def splitCharAux (c : Char) : List Char → List (List Char)
  | [] => [[]]
  | x :: xs =>
    match splitCharAux c xs with
    | [] => [[x]]
    | h :: t => if x = c then [] :: h :: t else (x :: h) :: t

/-- Split a string at a separator character. -/
def splitChar (c : Char) (s : String) : List String :=
  (splitCharAux c s.data).map String.mk

/-- `p` occurs as a contiguous substring of `s`. -/
def OccP (p s : List Char) : Prop := ∃ u v, s = u ++ p ++ v

/-- `p` occurs at the start of `s`. -/
def PreP (p s : List Char) : Prop := ∃ t, s = p ++ t

/-- `p` occurs at the end of `s`. -/
def SufP (p s : List Char) : Prop := ∃ u, s = u ++ p

/-! ## build-skia.py: configuration tables

Faithful to the module-level constants of `build-skia.py`.  The platform
argument of the script is one of `mac`, `ios`, `win`, `wasm` (the CLI value
`xcframework` is a pseudo-target that selects `mac` plus an extra flow, see
`runPipeline`).  `USE_LIBGRAPHEME` is `False` in the source. -/

inductive Platform where
  | mac | ios | win | wasm
deriving DecidableEq, Repr

inductive Config where
  | Debug | Release
deriving DecidableEq, Repr

def platName : Platform → String
  | .mac => "mac"
  | .ios => "ios"
  | .win => "win"
  | .wasm => "wasm"

def cfgName : Config → String
  | .Debug => "Debug"
  | .Release => "Release"

def USE_LIBGRAPHEME : Bool := false

def BASE_DIR : String := "build"

def DEPOT_TOOLS_PATH : String := BASE_DIR ++ "/tmp/depot_tools"

def DEPOT_TOOLS_URL : String := "https://chromium.googlesource.com/chromium/tools/depot_tools.git"

def SKIA_GIT_URL : String := "https://github.com/google/skia.git"

def SKIA_SRC_DIR : String := BASE_DIR ++ "/src/skia"

def TMP_DIR : String := BASE_DIR ++ "/tmp/skia"

def MAC_LIB_DIR : String := BASE_DIR ++ "/mac/lib"

def IOS_LIB_DIR : String := BASE_DIR ++ "/ios/lib"

def WASM_LIB_DIR : String := BASE_DIR ++ "/wasm/lib"

def WIN_LIB_DIR : String := BASE_DIR ++ "/win/lib"

def LIBS : Platform → List String
  | .mac =>
      ["libskia.a", "libskottie.a", "libskshaper.a", "libsksg.a",
       "libskparagraph.a", "libsvg.a", "libskunicode_core.a",
       if USE_LIBGRAPHEME then "libskunicode_libgrapheme.a" else "libskunicode_icu.a"]
  | .ios =>
      ["libskia.a", "libskottie.a", "libsksg.a", "libskshaper.a",
       "libskparagraph.a", "libsvg.a", "libskunicode_core.a",
       if USE_LIBGRAPHEME then "libskunicode_libgrapheme.a" else "libskunicode_icu.a"]
  | .win =>
      ["skia.lib", "skottie.lib", "sksg.lib", "skshaper.lib",
       "skparagraph.lib", "svg.lib", "skunicode_core.lib",
       if USE_LIBGRAPHEME then "skunicode_libgrapheme.lib" else "skunicode_icu.lib"]
  | .wasm =>
      ["libskia.a", "libskottie.a", "libskshaper.a", "libsksg.a",
       "libskparagraph.a", "libsvg.a", "libskunicode_core.a",
       if USE_LIBGRAPHEME then "libskunicode_libgrapheme.a" else "libskunicode_icu.a"]

def PACKAGE_DIRS : List String :=
  ["include",
   "modules/skottie",
   "modules/skparagraph",
   "modules/skshaper",
   "modules/skresources",
   "modules/skunicode",
   "modules/skcms",
   "modules/svg",
   "src/core",
   "src/base",
   "src/utils",
   "src/xml"]

def EXCLUDE_DEPS : List String :=
  ["third_party/externals/emsdk",
   "third_party/externals/v8",
   "third_party/externals/oboe",
   "third_party/externals/imgui",
   "third_party/externals/dng_sdk",
   "third_party/externals/microhttpd"]

def DONT_PACKAGE : List String :=
  ["android"]

def BASIC_GN_ARGS : String :=
  "\ncc = \"clang\"\ncxx = \"clang++\"\n"

def RELEASE_GN_ARGS : String :=
  "\nskia_use_system_libjpeg_turbo = false\nskia_use_system_libpng = false\nskia_use_system_zlib = false\nskia_use_system_expat = false\nskia_use_system_icu = false\nskia_use_system_harfbuzz = false\n\nskia_use_libwebp_decode = false\nskia_use_libwebp_encode = false\nskia_use_xps = false\nskia_use_dng_sdk = false\nskia_use_expat = true\nskia_use_gl = true\nskia_use_icu = true\nskia_use_libgrapheme = false\n\nskia_enable_graphite = true\nskia_enable_svg = true\nskia_enable_skottie = true\nskia_enable_pdf = false\nskia_enable_gpu = true\nskia_enable_skparagraph = true\n"

def PLATFORM_GN_ARGS : Platform → String
  | .mac =>
      "\n    skia_use_metal = true\n    skia_use_dawn = true\n    target_os = \"mac\"\n    extra_cflags = [\"-mmacosx-version-min=10.15\"]\n    extra_asmflags = [\"-mmacosx-version-min=10.15\"]\n    extra_cflags_c = [\"-Wno-error\"]\n    "
  | .ios =>
      "\n    skia_use_metal = true\n    target_os = \"ios\"\n    skia_ios_use_signing = false\n    extra_cflags = [\n        \"-miphoneos-version-min=13.0\",\n        \"-I../../../src/skia/third_party/externals/expat/lib\"\n    ]\n    extra_cflags_c = [\"-Wno-error\"]\n    "
  | .win =>
      "\n    skia_use_dawn = true\n    skia_use_direct3d = true\n    is_trivial_abi = false\n    "
  | .wasm =>
      "\n    target_os = \"wasm\"\n    is_component_build = false\n    is_trivial_abi = true\n    werror = true\n    skia_use_angle = false\n    skia_use_dng_sdk = false\n    skia_use_webgl = true\n    skia_use_webgpu = true\n    skia_use_expat = false\n    skia_use_fontconfig = false\n    skia_use_freetype = true\n    skia_use_libheif = false\n    skia_use_libjpeg_turbo_decode = true\n    skia_use_libjpeg_turbo_encode = false\n    skia_use_no_jpeg_encode = true\n    skia_use_libpng_decode = true\n    skia_use_libpng_encode = true\n    skia_use_no_png_encode = false\n    skia_use_libwebp_decode = true\n    skia_use_libwebp_encode = false\n    skia_use_no_webp_encode = true\n    skia_use_lua = false\n    skia_use_piex = false\n    skia_use_system_freetype2 = false\n    skia_use_system_libwebp = false\n    skia_use_vulkan = false\n    skia_use_wuffs = true\n    skia_use_zlib = true\n    skia_enable_ganesh = true\n    skia_enable_graphite = false\n    skia_build_for_debugger = false\n    skia_enable_skottie = false\n    skia_use_client_icu = false\n    skia_use_icu4x = false\n    skia_use_harfbuzz = true\n    skia_use_system_harfbuzz = false\n    skia_enable_fontmgr_custom_directory = false\n    skia_enable_fontmgr_custom_embedded = true\n    skia_enable_fontmgr_custom_empty = true\n    skia_use_freetype_woff2 = true\n    skia_enable_skshaper = true\n    "

/-- `SkiaBuildScript.validate_archs`: the per-platform valid-architecture sets. -/
def validArchs : Platform → List String
  | .mac => ["x86_64", "arm64", "universal"]
  | .ios => ["x86_64", "arm64"]
  | .win => ["x64", "Win32", "arm64"]
  | .wasm => ["wasm32"]

/-! ## build-skia.py: host detection and the argument synthesizer -/

/-- The parts of the host machine state that `SkiaBuildScript.is_arm64_host`
reads: `sys.platform`, the `MSYSTEM` / `PROCESSOR_ARCHITECTURE` environment
variables (`""` when unset) and the standard output of the PowerShell
processor-architecture query. -/
structure HostEnv where
  sysPlatform : String
  msystemVar : String
  processorArchVar : String
  powershellStdout : String
deriving DecidableEq, Repr

/-- `SkiaBuildScript.is_arm64_host`.  On non-Windows hosts it is `False`; on
Windows it checks `MSYSTEM` for the `CLANGARM64` substring, then
`PROCESSOR_ARCHITECTURE`, then the PowerShell query (whose failure modes
collapse to `False` via the `except` clause). -/
def is_arm64_host (e : HostEnv) : Bool :=
  if strStartsWith ("win") e.sysPlatform then
    if pyContains ("CLANGARM64") e.msystemVar then true
    else if pyLower e.processorArchVar = "arm64" then true
    else if pyLower (pyStrip e.powershellStdout) = "true" then true
    else false
  else false

/-- The flag text synthesized by `SkiaBuildScript.generate_gn_args` (the pure
string-building part of the method, before the `gn gen` invocation).
`isArm64` is the result of the `self.is_arm64_host()` call. -/
def genGnArgs (p : Platform) (cfg : Config) (arch : String) (isArm64 : Bool) : String :=
  let gnArgs := BASIC_GN_ARGS
  let gnArgs :=
    if cfg = Config.Debug then
      gnArgs ++ "is_debug = true\n"
    else
      gnArgs ++ PLATFORM_GN_ARGS p ++ RELEASE_GN_ARGS ++ "is_debug = false\n"
        ++ "is_official_build = true\n"
  match p with
  | .mac => gnArgs ++ "target_cpu = \"" ++ arch ++ "\""
  | .ios => gnArgs ++ "target_cpu = \"" ++ (if arch = "arm64" then "arm64" else "x64") ++ "\""
  | .win =>
      let gnArgs := gnArgs ++ "extra_cflags = [\""
        ++ (if cfg = Config.Debug then "/MTd" else "/MT") ++ "\"]\n"
      let gnArgs :=
        if arch = "arm64" then
          gnArgs ++ "target_cpu = \"arm64\"\n"
            ++ "skia_use_sse2 = false\n"
            ++ "skia_use_sse3 = false\n"
            ++ "skia_use_ssse3 = false\n"
            ++ "skia_use_sse41 = false\n"
            ++ "skia_use_sse42 = false\n"
            ++ "skia_use_avx = false\n"
            ++ "skia_use_avx2 = false\n"
        else
          let gnArgs := gnArgs ++ "target_cpu = \""
            ++ (if arch = "Win32" then "x86" else "x64") ++ "\"\n"
          if isArm64 && arch ≠ "arm64" then
            gnArgs ++ "skia_enable_ssse3 = false\n"
              ++ "skia_enable_sse42 = false\n"
              ++ "skia_enable_avx = false\n"
              ++ "skia_enable_avx2 = false\n"
              ++ "skia_enable_hsw = false\n"
              ++ "skia_enable_f16c = false\n"
              ++ "skia_enable_popcnt = false\n"
          else gnArgs
      gnArgs ++ "clang_win = \"C:\\\\Program Files\\\\LLVM\"\n"
  | .wasm => gnArgs ++ "target_cpu = \"wasm\"\n"

/-- The per-platform tail of `generate_gn_args`: everything the method appends
after the configuration-dependent flag tables (the target-CPU mapping and, on
Windows, the runtime-linkage flag, SIMD switches and the `clang_win` path). -/
def targetCpuArgs (p : Platform) (cfg : Config) (arch : String) (isArm64 : Bool) : String :=
  match p with
  | .mac => "target_cpu = \"" ++ arch ++ "\""
  | .ios => "target_cpu = \"" ++ (if arch = "arm64" then "arm64" else "x64") ++ "\""
  | .win =>
      "extra_cflags = [\"" ++ (if cfg = Config.Debug then "/MTd" else "/MT") ++ "\"]\n"
        ++ (if arch = "arm64" then
              "target_cpu = \"arm64\"\n"
                ++ "skia_use_sse2 = false\n"
                ++ "skia_use_sse3 = false\n"
                ++ "skia_use_ssse3 = false\n"
                ++ "skia_use_sse41 = false\n"
                ++ "skia_use_sse42 = false\n"
                ++ "skia_use_avx = false\n"
                ++ "skia_use_avx2 = false\n"
            else
              "target_cpu = \"" ++ (if arch = "Win32" then "x86" else "x64") ++ "\"\n"
                ++ (if isArm64 && arch ≠ "arm64" then
                      "skia_enable_ssse3 = false\n"
                        ++ "skia_enable_sse42 = false\n"
                        ++ "skia_enable_avx = false\n"
                        ++ "skia_enable_avx2 = false\n"
                        ++ "skia_enable_hsw = false\n"
                        ++ "skia_enable_f16c = false\n"
                        ++ "skia_enable_popcnt = false\n"
                    else ""))
        ++ "clang_win = \"C:\\\\Program Files\\\\LLVM\"\n"
  | .wasm => "target_cpu = \"wasm\"\n"

/-- The configuration-dependent head of `generate_gn_args`: the basic args
followed by either the minimal debug flag or the platform table, the shared
release table and the forced release flags. -/
def cfgBlock (p : Platform) (cfg : Config) : String :=
  if cfg = Config.Debug then
    BASIC_GN_ARGS ++ "is_debug = true\n"
  else
    BASIC_GN_ARGS ++ PLATFORM_GN_ARGS p ++ RELEASE_GN_ARGS ++ "is_debug = false\n"
      ++ "is_official_build = true\n"

/-- `SkiaBuildScript.generate_gn_args` viewed as an operation on the host
state: it reads the environment (through `is_arm64_host`), writes nothing
back, and returns the synthesized flag text. -/
def generateGnArgsCall (e : HostEnv) (p : Platform) (cfg : Config) (arch : String) :
    String × HostEnv :=
  (genGnArgs p cfg arch (is_arm64_host e), e)

/-- `SkiaBuildScript.generate_gn_args_summary`: the per-architecture flag text
recorded in the persisted summary file `gn_args.txt`.  Note that it always
concatenates the platform and release tables, appends an eight-space indented
trailer, and strips the result. -/
def genGnArgsSummary (p : Platform) (cfg : Config) (arch : String) : String :=
  let gnArgs := BASIC_GN_ARGS ++ PLATFORM_GN_ARGS p ++ RELEASE_GN_ARGS
  let gnArgs := gnArgs
    ++ "\n        is_debug = " ++ (if cfg = Config.Debug then "true" else "false")
    ++ "\n        is_official_build = " ++ (if cfg = Config.Debug then "false" else "true")
    ++ "\n        target_cpu = \"" ++ arch ++ "\"\n        "
  pyStrip gnArgs

/-! ## build-skia.py: the pipeline as an event trace

The script's observable behaviour is a sequence of events (spawned external
commands, filesystem operations, console output) ending either normally or in
a `sys.exit` (or an uncaught `CalledProcessError`, which also terminates the
interpreter with a non-zero status).  Results of external tools and
file-existence tests are supplied by a `World` of oracles. -/

inductive Ev where
  | cmd (args : List String)
  | copyF (src dest : String)
  | unlinkF (path : String)
  | rmtreeF (path : String)
  | mkdirF (path : String)
  | editF (path : String)
  | writeF (path content : String)
  | echo (msg : String)
deriving DecidableEq, Repr

def Ev.isCmd : Ev → Bool
  | .cmd _ => true
  | _ => false

def Ev.getCmd : Ev → Option (List String)
  | .cmd c => some c
  | _ => none

structure Out where
  events : List Ev
  exit : Option Nat
deriving DecidableEq, Repr

/-- Trace with no events that continues. -/
def Out.ret : Out := ⟨[], none⟩

/-- Emit events and continue. -/
def Out.emit (evs : List Ev) : Out := ⟨evs, none⟩

/-- Emit events and terminate the process with the given exit code. -/
def Out.die (code : Nat) (evs : List Ev) : Out := ⟨evs, some code⟩

/-- Sequential composition: once a step has terminated the process, nothing
after it runs. -/
def Out.seq (a b : Out) : Out :=
  match a.exit with
  | some _ => a
  | none => ⟨a.events ++ b.events, b.exit⟩

/-- Run a step for each element of a list, in order, stopping at the first
step that terminates the process. -/
def forEachSeq (f : α → Out) : List α → Out
  | [] => Out.ret
  | x :: xs => (f x).seq (forEachSeq f xs)

/-- A filesystem tree: named subdirectories and plain file names, as walked by
`os.walk` (top-down). -/
inductive FTree where
  | node (dirs : List (String × FTree)) (files : List String)
deriving Repr

/-- Oracles for everything `build-skia.py` observes from outside: the host
environment, exit codes / captured streams of spawned commands (keyed by the
full command line), file-existence tests (keyed by path), and the source
trees walked by the header packager (keyed by the `PACKAGE_DIRS` entry). -/
structure World where
  host : HostEnv
  depotToolsExists : Bool
  skiaSrcExists : Bool
  depsFileExists : Bool
  activateEmsdkExists : Bool
  gnExecExists : Bool
  runRet : List String → Nat
  runOut : List String → String
  runErr : List String → String
  fileExists : String → Bool
  srcTree : String → Option FTree

def winHost (w : World) : Bool := strStartsWith ("win") w.host.sysPlatform

/-- A `subprocess.run(cmd, check=True)` call: on a non-zero exit status the
`CalledProcessError` propagates (unless caught by the caller) and kills the
interpreter with exit status 1. -/
def runChecked (w : World) (cmd : List String) : Out :=
  if w.runRet cmd = 0 then Out.emit [Ev.cmd cmd]
  else Out.die 1 [Ev.cmd cmd]

/-- `SkiaBuildScript.validate_archs`: exits with status 1 at the first
architecture outside the platform's valid set. -/
def validateArchs (p : Platform) : List String → Out
  | [] => Out.ret
  | a :: rest =>
    if a ∈ validArchs p then validateArchs p rest
    else Out.die 1 [Ev.echo ("Invalid architecture for " ++ platName p ++ ": " ++ a)]

/-- `SkiaBuildScript.setup_depot_tools` (the `PATH` / environment-variable
mutations have no observable event). -/
def setupDepotTools (w : World) : Out :=
  if w.depotToolsExists then Out.ret
  else runChecked w ["git", "clone", DEPOT_TOOLS_URL, DEPOT_TOOLS_PATH]

/-- `SkiaBuildScript.setup_python3_on_windows`. -/
def setupPython3OnWindows (w : World) : Out :=
  if winHost w then
    Out.emit
      [Ev.echo "Setting up python3 wrapper for Windows...",
       Ev.mkdirF (BASE_DIR ++ "/tmp"),
       Ev.writeF (BASE_DIR ++ "/tmp/python3.bat") "@echo off\r\npython %*\r\n",
       Ev.echo ("Created python3 wrapper at " ++ BASE_DIR ++ "/tmp/python3.bat")]
  else Out.ret

/-- `SkiaBuildScript.setup_skia_repo`. -/
def setupSkiaRepo (w : World) (branch : String) (shallow : Bool) : Out :=
  (Out.emit [Ev.echo ("Setting up Skia repository (branch: " ++ branch ++ ")...")]).seq <|
  (if ¬ w.skiaSrcExists then
    runChecked w (["git", "clone"] ++ (if shallow then ["--depth", "1"] else [])
      ++ ["--branch", branch, SKIA_GIT_URL, SKIA_SRC_DIR])
  else
    (runChecked w (["git", "fetch"] ++ (if shallow then ["--depth", "1"] else [])
      ++ ["origin", branch])).seq <|
    (runChecked w ["git", "checkout", branch]).seq <|
    runChecked w ["git", "reset", "--hard", "origin/" ++ branch]).seq <|
  Out.emit [Ev.echo "Skia repository setup complete."]

/-- `SkiaBuildScript.modify_deps`: rewrites the DEPS file in place, commenting
out the `EXCLUDE_DEPS` lines; exits with status 1 when DEPS is missing. -/
def modifyDeps (w : World) : Out :=
  if ¬ w.depsFileExists then
    Out.die 1 [Ev.echo ("Error: " ++ SKIA_SRC_DIR ++ "/DEPS not found.")]
  else
    Out.emit
      [Ev.editF (SKIA_SRC_DIR ++ "/DEPS"),
       Ev.echo ("Modified " ++ SKIA_SRC_DIR ++ "/DEPS to exclude specified dependencies.")]

/-- `SkiaBuildScript.patch_activate_emsdk`: creates a dummy script when the
file is absent, otherwise edits it in place; never terminates the process. -/
def patchActivateEmsdk (w : World) : Out :=
  (Out.emit [Ev.echo "Patching activate-emsdk script..."]).seq <|
  if ¬ w.activateEmsdkExists then
    Out.emit
      [Ev.echo ("Warning: " ++ SKIA_SRC_DIR ++ "/bin/activate-emsdk not found, creating a dummy version"),
       Ev.writeF (SKIA_SRC_DIR ++ "/bin/activate-emsdk")
         "#!/usr/bin/env python\n\ndef main():\n    return\n\nif __name__ == '__main__':\n    main()\n",
       Ev.echo "Created dummy activate-emsdk script"]
  else
    Out.emit
      [Ev.editF (SKIA_SRC_DIR ++ "/bin/activate-emsdk"),
       Ev.echo ("Successfully patched " ++ SKIA_SRC_DIR ++ "/bin/activate-emsdk")]

/-- `SkiaBuildScript.sync_deps`. -/
def syncDeps (w : World) : Out :=
  (Out.emit [Ev.echo "Syncing Deps..."]).seq <|
  (patchActivateEmsdk w).seq <|
  (if winHost w then runChecked w ["python", "tools/git-sync-deps"]
   else runChecked w ["python3", "tools/git-sync-deps"])

/-- The per-architecture output tree of the external generator. -/
def outputDirOf (p : Platform) (cfg : Config) (arch : String) : String :=
  TMP_DIR ++ "/" ++ platName p ++ "_" ++ cfgName cfg ++ "_" ++ arch

def gnPath (w : World) : String :=
  if winHost w then SKIA_SRC_DIR ++ "/bin/gn.exe" else "./bin/gn"

/-- The full `gn gen` command line. -/
def gnCmdOf (w : World) (p : Platform) (cfg : Config) (arch : String) : List String :=
  [gnPath w, "gen", outputDirOf p cfg arch,
   "--args=" ++ genGnArgs p cfg arch (is_arm64_host w.host)]

/-- The `gn gen` invocation of `SkiaBuildScript.generate_gn_args`, including
the text synthesis, the gn-executable existence check and the captured-output
failure handling (`check=False` plus an explicit `returncode` test that exits
with status 1).  The console dump of `PATH`-style environment details is
collapsed into its header line. -/
def generateGnArgsStep (w : World) (p : Platform) (cfg : Config) (arch : String) : Out :=
  let gnArgs := genGnArgs p cfg arch (is_arm64_host w.host)
  let cmd := gnCmdOf w p cfg arch
  (Out.emit
    [Ev.echo ("Generating gn args for " ++ platName p ++ " " ++ arch ++ " settings:"),
     Ev.echo gnArgs]).seq <|
  (if ¬ w.gnExecExists then
    Out.die 1 [Ev.echo ("Error: gn executable not found at " ++ gnPath w)]
   else
    (Out.emit [Ev.echo "Environment information:"]).seq <|
    if w.runRet cmd ≠ 0 then
      Out.die 1
        [Ev.cmd cmd,
         Ev.echo "Error running gn gen:",
         Ev.echo ("Return code: " ++ toString (w.runRet cmd)),
         Ev.echo ("stdout: " ++ w.runOut cmd),
         Ev.echo ("stderr: " ++ w.runErr cmd)]
    else
      Out.emit [Ev.cmd cmd, Ev.echo "GN gen completed successfully"])

/-- The ninja target list: on Windows the `.lib` suffix is stripped. -/
def libsToBuild (p : Platform) : List String :=
  if p = Platform.win then
    (LIBS p).map (fun lib => if strEndsWith (".lib") lib then strDropRight 4 lib else lib)
  else LIBS p

def ninjaCmdOf (w : World) (p : Platform) (cfg : Config) (arch : String) : List String :=
  (if winHost w then [DEPOT_TOOLS_PATH ++ "/ninja.exe", "-C", outputDirOf p cfg arch]
   else ["ninja", "-C", outputDirOf p cfg arch]) ++ libsToBuild p

/-- `SkiaBuildScript.build_skia`: runs ninja with `check=True`; the
`CalledProcessError` handler prints the command line and the error, then
exits with status 1.  (The Windows ninja-download fallback is not modelled;
the Windows ninja is taken at its depot-tools path.) -/
def buildSkiaStep (w : World) (p : Platform) (cfg : Config) (arch : String) : Out :=
  let cmd := ninjaCmdOf w p cfg arch
  if w.runRet cmd = 0 then
    Out.emit [Ev.cmd cmd,
      Ev.echo ("Successfully built targets for " ++ platName p ++ " " ++ arch)]
  else
    Out.die 1
      [Ev.cmd cmd,
       Ev.echo ("Error: Build failed for " ++ platName p ++ " " ++ arch),
       Ev.echo ("Ninja command: " ++ joinWith " " cmd),
       Ev.echo ("Error details: returned non-zero exit status "
         ++ toString (w.runRet cmd))]

/-- The destination directory of `SkiaBuildScript.move_libs`, keyed by
platform, configuration and architecture (the architecture segment is dropped
for the mac `universal` pseudo-architecture and for wasm). -/
def destDirOf (p : Platform) (cfg : Config) (arch : String) : String :=
  match p with
  | .mac => MAC_LIB_DIR ++ "/" ++ cfgName cfg ++ (if arch = "universal" then "" else "/" ++ arch)
  | .ios => IOS_LIB_DIR ++ "/" ++ cfgName cfg ++ "/" ++ arch
  | .wasm => WASM_LIB_DIR ++ "/" ++ cfgName cfg
  | .win => WIN_LIB_DIR ++ "/" ++ cfgName cfg ++ "/" ++ arch

/-- `SkiaBuildScript.move_libs`: best-effort artifact collection — each
library present in the output tree is copied to the destination and then
unlinked; an absent library only produces a warning. -/
def moveLibsStep (w : World) (p : Platform) (cfg : Config) (arch : String) : Out :=
  let srcDir := outputDirOf p cfg arch
  let destDir := destDirOf p cfg arch
  Out.emit ([Ev.mkdirF destDir] ++
    (LIBS p).flatMap (fun lib =>
      if w.fileExists (srcDir ++ "/" ++ lib) then
        [Ev.copyF (srcDir ++ "/" ++ lib) (destDir ++ "/" ++ lib),
         Ev.echo ("Copied " ++ lib ++ " to " ++ destDir),
         Ev.unlinkF (srcDir ++ "/" ++ lib)]
      else
        [Ev.echo ("Warning: " ++ lib ++ " not found in " ++ srcDir)]))

/-- The lipo invocation fusing the two per-architecture copies of `lib` into
the architecture-less destination. -/
def lipoCmd (cfg : Config) (lib : String) : List String :=
  ["lipo", "-create",
   MAC_LIB_DIR ++ "/" ++ cfgName cfg ++ "/x86_64/" ++ lib,
   MAC_LIB_DIR ++ "/" ++ cfgName cfg ++ "/arm64/" ++ lib,
   "-output", MAC_LIB_DIR ++ "/" ++ cfgName cfg ++ "/" ++ lib]

/-- `SkiaBuildScript.create_universal_binary` (called with `self.platform`
equal to `mac`): one lipo call per library in the platform list, then removal
of both architecture-specific subdirectories. -/
def createUniversalBinary (w : World) (p : Platform) (cfg : Config) : Out :=
  (Out.emit [Ev.echo "Creating universal files...",
             Ev.mkdirF (MAC_LIB_DIR ++ "/" ++ cfgName cfg)]).seq <|
  (forEachSeq (fun lib =>
      (runChecked w (lipoCmd cfg lib)).seq <|
      Out.emit [Ev.echo ("Created universal file: " ++ lib)])
    (LIBS p)).seq <|
  Out.emit [Ev.rmtreeF (MAC_LIB_DIR ++ "/" ++ cfgName cfg ++ "/x86_64"),
            Ev.rmtreeF (MAC_LIB_DIR ++ "/" ++ cfgName cfg ++ "/arm64")]

/-- `SkiaBuildScript.combine_libraries`. -/
def combineLibraries (w : World) (cfg : Config) (p : Platform) (arch : String) : Out :=
  let libDir :=
    if p = Platform.mac then
      MAC_LIB_DIR ++ "/" ++ cfgName cfg ++ (if arch = "universal" then "" else "/" ++ arch)
    else IOS_LIB_DIR ++ "/" ++ cfgName cfg ++ "/" ++ arch
  let inputLibs := ((LIBS p).filter (fun lib => w.fileExists (libDir ++ "/" ++ lib))).map
    (fun lib => libDir ++ "/" ++ lib)
  (Out.emit [Ev.echo ("Combining libraries for " ++ platName p ++ " " ++ arch ++ "...")]).seq <|
  (if inputLibs ≠ [] then
    (runChecked w (["libtool", "-static", "-o", libDir ++ "/libSkia.a"] ++ inputLibs)).seq <|
    Out.emit [Ev.echo ("Created combined library: " ++ libDir ++ "/libSkia.a")]
  else
    Out.emit [Ev.echo ("No libraries found to combine for " ++ platName p ++ " " ++ arch)])

def xcframeworkCmd (withHeaders : Bool) : List String :=
  ["xcodebuild", "-create-xcframework"] ++
  (["x86_64", "arm64"].flatMap fun a =>
    ["-library", IOS_LIB_DIR ++ "/Release/" ++ a ++ "/libSkia.a"] ++
    (if withHeaders then ["-headers", BASE_DIR ++ "/include"] else [])) ++
  ["-library", MAC_LIB_DIR ++ "/Release/libSkia.a"] ++
  (if withHeaders then ["-headers", BASE_DIR ++ "/include"] else []) ++
  ["-output", BASE_DIR ++ "/xcframework/Skia.xcframework"]

/-- `SkiaBuildScript.create_xcframework`: the xcodebuild invocation is wrapped
in `try`/`except CalledProcessError`; the handler prints the command line and
the error but — unlike `build_skia` — performs no `sys.exit`, so the method
returns normally in both branches. -/
def createXcframework (w : World) (withHeaders : Bool) : Out :=
  let xcPath := BASE_DIR ++ "/xcframework/Skia.xcframework"
  let cmd := xcframeworkCmd withHeaders
  (Out.emit ([Ev.echo "Creating Skia XCFramework...",
              Ev.mkdirF (BASE_DIR ++ "/xcframework")] ++
             (if w.fileExists xcPath then [Ev.rmtreeF xcPath] else []))).seq <|
  (if w.runRet cmd = 0 then
    Out.emit [Ev.cmd cmd, Ev.echo ("Created Skia XCFramework at " ++ xcPath)]
  else
    Out.emit
      [Ev.cmd cmd,
       Ev.echo "Error creating Skia XCFramework",
       Ev.echo ("Command: " ++ joinWith " " cmd),
       Ev.echo ("Error details: returned non-zero exit status "
         ++ toString (w.runRet cmd))])

/-- Path segments of a `PACKAGE_DIRS` entry. -/
def pathParts (d : String) : List String := splitChar '/' d

/-- The walk of `SkiaBuildScript.package_headers` under one package
directory: per directory level, header files whose relative path survives the
`DONT_PACKAGE` filter are collected, and excluded subdirectory names are
pruned from the descent (the `dirs[:] = ...` assignment). -/
def walkCopies (pre : List String) : FTree → List (List String)
  | .node dirs files =>
    files.flatMap (fun f =>
      if strEndsWith (".h") f && !(DONT_PACKAGE.any (fun ex => (pre ++ [f]).contains ex)) then
        [pre ++ [f]]
      else []) ++
    walkSub pre dirs
where
  walkSub (pre : List String) : List (String × FTree) → List (List String)
  | [] => []
  | d :: ds =>
    (if DONT_PACKAGE.contains d.1 then [] else walkCopies (pre ++ [d.1]) d.2) ++
    walkSub pre ds

/-- The relative paths (as segment lists) of all header files copied by
`SkiaBuildScript.package_headers` for a given source filesystem. -/
def packageHeaders (fs : String → Option FTree) : List (List String) :=
  PACKAGE_DIRS.flatMap (fun d =>
    match fs d with
    | some t => walkCopies (pathParts d) t
    | none => [])

/-- `SkiaBuildScript.package_headers` as a pipeline step: one copy event per
collected header. -/
def packageHeadersStep (w : World) (destDir : String) : Out :=
  Out.emit ([Ev.echo ("Packaging headers to " ++ destDir ++ "..."),
             Ev.mkdirF destDir] ++
    (packageHeaders w.srcTree).map (fun rel =>
      Ev.copyF (SKIA_SRC_DIR ++ "/" ++ joinWith "/" rel)
               (destDir ++ "/" ++ joinWith "/" rel)))

def summaryFileOf (p : Platform) : String :=
  match p with
  | .mac => MAC_LIB_DIR ++ "/gn_args.txt"
  | .ios => IOS_LIB_DIR ++ "/gn_args.txt"
  | .wasm => BASE_DIR ++ "/wasm/gn_args.txt"
  | .win => WIN_LIB_DIR ++ "/gn_args.txt"

/-- The full text written by `SkiaBuildScript.write_gn_args_summary`. -/
def summaryContent (p : Platform) (cfg : Config) (archs : List String) : String :=
  "Skia Build Summary for " ++ platName p ++ "\n"
    ++ "Configuration: " ++ cfgName cfg ++ "\n"
    ++ "Architectures: " ++ joinWith ", " archs ++ "\n\n"
    ++ "GN Arguments:\n"
    ++ String.join (archs.map (fun arch =>
        "\nFor " ++ arch ++ ":\n" ++ genGnArgsSummary p cfg arch ++ "\n"))

def writeGnArgsSummaryStep (p : Platform) (cfg : Config) (archs : List String) : Out :=
  Out.emit
    [Ev.writeF (summaryFileOf p) (summaryContent p cfg archs),
     Ev.echo ("GN args summary written to " ++ summaryFileOf p)]

/-- `SkiaBuildScript.create_all_platforms_zip` (no external process; the zip
is written with Python's `zipfile`).  The archive contents are abstracted. -/
def zipStep (w : World) : Out :=
  (Out.emit [Ev.echo "Creating zip archive with all platforms..."]).seq <|
  if ¬ w.fileExists (BASE_DIR ++ "/include") then
    Out.emit [Ev.echo "Error: Include directory not found"]
  else
    Out.emit [Ev.writeF (BASE_DIR ++ "/skia-all-platforms.zip") "<zip of include and platform lib directories>",
              Ev.echo ("Created zip archive at " ++ BASE_DIR ++ "/skia-all-platforms.zip")]

/-- The `BuildRequest` assembled by `SkiaBuildScript.parse_arguments`: for the
`xcframework` CLI pseudo-platform the script stores `platform = mac`,
`config = Release`, `archs = ["universal"]` and `xcframework = True`. -/
structure BuildRequest where
  platform : Platform
  config : Config
  archs : List String
  xcframework : Bool
  branch : String
  shallow : Bool
  zipAll : Bool
deriving DecidableEq, Repr

def completionMsg (p : Platform) (cfg : Config) (archs : List String) : String :=
  "Build completed successfully for " ++ platName p ++ " " ++ cfgName cfg
    ++ " configuration with architectures: " ++ joinWith ", " archs

/-- `SkiaBuildScript.run`, from the end of `parse_arguments` (the
`validate_archs` call) onwards.  Mirrors the source order: validation, depot
tools, python3 wrapper, repository setup, DEPS modification (Release only),
dependency sync, the expansion of `universal` into both real architectures,
the per-architecture generate/build/collect loop, the mac universal-binary
merge, the xcframework flow or plain header packaging, the flag summary and
the optional zip. -/
def runPipeline (r : BuildRequest) (w : World) : Out :=
  (validateArchs r.platform r.archs).seq <|
  (setupDepotTools w).seq <|
  (if winHost w then setupPython3OnWindows w else Out.ret).seq <|
  (setupSkiaRepo w r.branch r.shallow).seq <|
  (if r.config = Config.Release then modifyDeps w else Out.ret).seq <|
  (syncDeps w).seq <|
  (let archs := if r.archs.contains "universal" || r.xcframework
                then ["x86_64", "arm64"] else r.archs
   (forEachSeq (fun arch =>
      (generateGnArgsStep w r.platform r.config arch).seq <|
      (buildSkiaStep w r.platform r.config arch).seq <|
      moveLibsStep w r.platform r.config arch) archs).seq <|
   (if r.platform = Platform.mac ∧ archs = ["x86_64", "arm64"] then
      createUniversalBinary w r.platform r.config
    else Out.ret).seq <|
   (if r.xcframework then
      (combineLibraries w r.config Platform.mac "universal").seq <|
      (forEachSeq (fun arch =>
          (generateGnArgsStep w Platform.ios r.config arch).seq <|
          (buildSkiaStep w Platform.ios r.config arch).seq <|
          (moveLibsStep w Platform.ios r.config arch).seq <|
          combineLibraries w r.config Platform.ios arch) ["x86_64", "arm64"]).seq <|
      (packageHeadersStep w (BASE_DIR ++ "/include")).seq <|
      createXcframework w true
    else packageHeadersStep w (BASE_DIR ++ "/include")).seq <|
   (let pFinal := if r.xcframework then Platform.ios else r.platform
    let archsFinal := if r.xcframework then ["x86_64", "arm64"] else archs
    (writeGnArgsSummaryStep pFinal r.config archsFinal).seq <|
    (Out.emit [Ev.echo (completionMsg pFinal r.config archsFinal)]).seq <|
    (if r.zipAll then zipStep w else Out.ret).seq <|
    Out.emit [Ev.echo (completionMsg pFinal r.config archsFinal)]))

/-! ## The spec-modelled variant axis

The spec's design notes record that the repository contains a second,
feature-complete version of the main build script adding a CPU-only/GPU
variant axis; that version is not under `src/`.  The following definitions
are therefore modelled from the spec rather than from source code. -/

/-- Modelled from the spec: the variant axis ("CPU-only or GPU-accelerated;
selects an alternate flag table and an additional set of GPU-backend library
artifacts", spec section 3) of the feature-complete build script, which is
missing from `src/`. -/
inductive Variant where
  | cpu | gpu
deriving DecidableEq, Repr

/-- Modelled from the spec: the variant-dependent flag synthesis — for the
GPU variant the GPU-backend flag table is appended to the flag entries,
otherwise it is not emitted at all (spec sections 4.1 and 8). -/
def synthFlagsV (baseTable gpuTable : List String) (v : Variant) : List String :=
  baseTable ++ (if v = Variant.gpu then gpuTable else [])

/-- Modelled from the spec: the variant-dependent artifact collection — "for
the GPU variant, an additional platform-specific list of backend libraries is
copied" (spec section 4.3), so the CPU variant collects only the platform
library list. -/
def collectTargetsV (libs gpuLibs : List String) (v : Variant) : List String :=
  libs ++ (if v = Variant.gpu then gpuLibs else [])

/-! ## patches/apply_dawn_ios_visionos.py

`apply_patches` edits four files under `third_party/dawn`.  Each file's
transformation is a pure function on its text: a marker-substring check
guards one or more Python `str.replace` calls.  The needle, replacement and
marker strings below are the literal strings of the Python source. -/

-- patch1 (args.gni)
def dawnN1 : List Char :=
  ("  dawn_enable_vulkan = is_linux || is_android\n\x7d").data

def dawnR1 : List Char :=
  ("  dawn_enable_vulkan = is_linux || is_android\n\n  # Target platform override for visionOS builds (which use target_os=ios as a workaround)\n  # Set to \"visionos\" when building for visionOS, otherwise leave as empty string\n  dawn_target_platform = \"\"\n\x7d").data

-- patch2 (BUILD.gn)
def dawnN2 : List Char :=
  ("  args += sanitizer_args").data

def dawnR2 : List Char :=
  ("\n  # Pass iOS simulator flag to CMake (iOS only)\n  # This is needed because on Apple Silicon, arm64 is used for both device\n  # and simulator builds, so we can\x27t infer simulator from CPU architecture.\n  if (is_ios && defined(ios_use_simulator) && ios_use_simulator) \x7b\n    args += [ \"--ios_simulator\" ]\n  \x7d\n\n  # Pass visionOS target platform to CMake (for visionOS builds using target_os=ios workaround)\n  # When dawn_target_platform=\"visionos\", Dawn will use xros SDK instead of iphoneos SDK\n  if (is_ios && defined(dawn_target_platform) && dawn_target_platform == \"visionos\") \x7b\n    args += [ \"--visionos\" ]\n  \x7d\n\n  args += sanitizer_args").data

-- patch3a (build_dawn imports)
def dawnN3a : List Char :=
  ("from cmake_utils import (add_common_cmake_args, combine_into_library,\n                         discover_dependencies, get_cmake_os_cpu,\n                         get_windows_settings, quote_if_needed, write_depfile,\n                         get_third_party_locations)").data

def dawnR3a : List Char :=
  ("from cmake_utils import (add_common_cmake_args, combine_into_library,\n                         discover_dependencies, get_cmake_os_cpu,\n                         get_windows_settings, get_ios_settings,\n                         get_visionos_settings, quote_if_needed, write_depfile,\n                         get_third_party_locations)").data

-- patch3b (build_dawn args)
def dawnN3b : List Char :=
  ("parser.add_argument(\n      \"--dawn_enable_vulkan\", default=\"false\", help=\"Enable Vulkan backend.\")\n  args = parser.parse_args()").data

def dawnR3b : List Char :=
  ("parser.add_argument(\n      \"--dawn_enable_vulkan\", default=\"false\", help=\"Enable Vulkan backend.\")\n  parser.add_argument(\n      \"--ios_simulator\", action=\"store_true\",\n      help=\"Building for iOS simulator (uses iphonesimulator SDK)\")\n  parser.add_argument(\n      \"--visionos\", action=\"store_true\",\n      help=\"Building for visionOS (uses xros SDK instead of iphoneos)\")\n  args = parser.parse_args()").data

-- patch3c (build_dawn ios handling)
def dawnN3c : List Char :=
  ("if target_os == \"Darwin\" or target_os == \"iOS\":\n    configure_cmd.append(f\"-DCMAKE_OSX_ARCHITECTURES=\x7btarget_cpu\x7d\")\n\n  env = os.environ.copy()").data

def dawnR3c : List Char :=
  ("if target_os == \"Darwin\" or target_os == \"iOS\":\n    configure_cmd.append(f\"-DCMAKE_OSX_ARCHITECTURES=\x7btarget_cpu\x7d\")\n    if target_os == \"iOS\":\n      # Get iOS/visionOS SDK settings\n      if args.visionos:\n        # visionOS: CMake 3.28+ supports CMAKE_SYSTEM_NAME=visionOS\n        # We need to override the system name set earlier to use the correct platform\n        # Find and replace the CMAKE_SYSTEM_NAME in configure_cmd\n        for i, arg in enumerate(configure_cmd):\n          if arg.startswith(\"-DCMAKE_SYSTEM_NAME=\"):\n            configure_cmd[i] = \"-DCMAKE_SYSTEM_NAME=visionOS\"\n            break\n        platform_cfgs = get_visionos_settings(target_cpu, is_simulator=args.ios_simulator)\n      else:\n        # iOS uses iphoneos/iphonesimulator SDK\n        platform_cfgs = get_ios_settings(target_cpu, is_simulator=args.ios_simulator)\n      configure_cmd += platform_cfgs\n      # Disable tint command-line tools for iOS/visionOS (they require MACOSX_BUNDLE config)\n      configure_cmd.append(\"-DTINT_BUILD_CMD_TOOLS=OFF\")\n\n  env = os.environ.copy()").data

-- patch4a (cmake_utils os map)
def dawnN4a : List Char :=
  ("  if os == \"mac\":\n    target_cpu_map = \x7b\n      \"arm64\": \"arm64\",\n      \"x64\": \"x86_64\",\n    \x7d\n    return \"Darwin\", target_cpu_map[cpu]\n\n  if os == \"win\":").data

def dawnR4a : List Char :=
  ("  if os == \"mac\":\n    target_cpu_map = \x7b\n      \"arm64\": \"arm64\",\n      \"x64\": \"x86_64\",\n    \x7d\n    return \"Darwin\", target_cpu_map[cpu]\n\n  if os == \"ios\":\n    # iOS uses the same CPU names as Darwin\n    target_cpu_map = \x7b\n      \"arm64\": \"arm64\",\n      \"x64\": \"x86_64\",\n    \x7d\n    return \"iOS\", target_cpu_map[cpu]\n\n  if os == \"win\":").data

-- patch4b (cmake_utils functions)
def dawnN4b : List Char :=
  ("def get_windows_settings(args):").data

def dawnR4b : List Char :=
  ("\ndef get_ios_settings(target_cpu, is_simulator=False):\n  \"\"\"Get CMake settings for iOS cross-compilation.\n     Uses xcrun to find the appropriate iOS SDK.\n\n     Args:\n       target_cpu: Target CPU architecture (arm64 or x64)\n       is_simulator: If True, use simulator SDK regardless of CPU architecture.\n                     This is important on Apple Silicon where arm64 is used for\n                     both device and simulator builds.\n  \"\"\"\n  ios_cfgs = []\n\n  # Use simulator SDK if explicitly requested, otherwise device SDK\n  if is_simulator:\n    sdk_name = \"iphonesimulator\"\n  else:\n    sdk_name = \"iphoneos\"\n\n  # Get SDK path using xcrun\n  try:\n    sdk_path = subprocess.check_output(\n        [\"xcrun\", \"--sdk\", sdk_name, \"--show-sdk-path\"],\n        text=True\n    ).strip()\n  except subprocess.CalledProcessError:\n    print(f\"Error: Could not find iOS SDK for \x7bsdk_name\x7d\")\n    sys.exit(1)\n\n  ios_cfgs.append(f\"-DCMAKE_OSX_SYSROOT=\x7bsdk_path\x7d\")\n  # Dawn uses C++ atomic wait/notify_all which requires iOS 14.0+\n  ios_cfgs.append(\"-DCMAKE_OSX_DEPLOYMENT_TARGET=14.0\")\n\n  # Cross-compilation hints for pthreads (built-in on iOS)\n  # CMake\x27s FindThreads module can\x27t run test programs when cross-compiling,\n  # so we need to provide these hints.\n  ios_cfgs.append(\"-DCMAKE_CROSSCOMPILING=YES\")\n  # Prevent CMake from trying to run test executables during cross-compilation\n  ios_cfgs.append(\"-DCMAKE_TRY_COMPILE_TARGET_TYPE=STATIC_LIBRARY\")\n  # Thread library hints - pthreads is built into the system on Apple platforms\n  ios_cfgs.append(\"-DTHREADS_PREFER_PTHREAD_FLAG=ON\")\n  ios_cfgs.append(\"-DCMAKE_THREAD_LIBS_INIT=-lpthread\")\n  ios_cfgs.append(\"-DCMAKE_HAVE_THREADS_LIBRARY=1\")\n  ios_cfgs.append(\"-DCMAKE_USE_PTHREADS_INIT=1\")\n  ios_cfgs.append(\"-DCMAKE_HAVE_LIBC_PTHREAD=1\")\n\n  return ios_cfgs\n\n\ndef get_visionos_settings(target_cpu, is_simulator=False):\n  \"\"\"Get CMake settings for visionOS cross-compilation.\n     Uses xcrun to find the appropriate visionOS SDK.\n\n     Since CMake doesn\x27t natively support visionOS, we use CMAKE_SYSTEM_NAME=iOS\n     but override the sysroot and add target flags for visionOS (xros).\n\n     Args:\n       target_cpu: Target CPU architecture (arm64)\n       is_simulator: If True, use simulator SDK\n  \"\"\"\n  visionos_cfgs = []\n\n  # Determine SDK and target suffix\n  if is_simulator:\n    sdk_name = \"xrsimulator\"\n    target_suffix = \"-simulator\"\n  else:\n    sdk_name = \"xros\"\n    target_suffix = \"\"\n\n  # Get SDK path using xcrun\n  try:\n    sdk_path = subprocess.check_output(\n        [\"xcrun\", \"--sdk\", sdk_name, \"--show-sdk-path\"],\n        text=True\n    ).strip()\n  except subprocess.CalledProcessError:\n    print(f\"Error: Could not find visionOS SDK for \x7bsdk_name\x7d\")\n    sys.exit(1)\n\n  visionos_cfgs.append(f\"-DCMAKE_OSX_SYSROOT=\x7bsdk_path\x7d\")\n  # visionOS minimum deployment target\n  visionos_cfgs.append(\"-DCMAKE_OSX_DEPLOYMENT_TARGET=1.0\")\n  # Add target triple flags to ensure correct platform metadata in object files\n  # This is critical - without it, object files get iOS platform metadata instead of visionOS\n  # Include -w to suppress warnings (normally added elsewhere, but we\x27re overriding FLAGS)\n  visionos_cfgs.append(f\"-DCMAKE_C_FLAGS=-w -target arm64-apple-xros1.0\x7btarget_suffix\x7d\")\n  visionos_cfgs.append(f\"-DCMAKE_CXX_FLAGS=-w -target arm64-apple-xros1.0\x7btarget_suffix\x7d\")\n  visionos_cfgs.append(f\"-DCMAKE_ASM_FLAGS=-target arm64-apple-xros1.0\x7btarget_suffix\x7d\")\n\n  # Cross-compilation hints for pthreads (built-in on visionOS)\n  visionos_cfgs.append(\"-DCMAKE_CROSSCOMPILING=YES\")\n  # Prevent CMake from trying to run test executables during cross-compilation\n  visionos_cfgs.append(\"-DCMAKE_TRY_COMPILE_TARGET_TYPE=STATIC_LIBRARY\")\n  # Thread library hints - pthreads is built into the system on Apple platforms\n  visionos_cfgs.append(\"-DTHREADS_PREFER_PTHREAD_FLAG=ON\")\n  visionos_cfgs.append(\"-DCMAKE_THREAD_LIBS_INIT=-lpthread\")\n  visionos_cfgs.append(\"-DCMAKE_HAVE_THREADS_LIBRARY=1\")\n  visionos_cfgs.append(\"-DCMAKE_USE_PTHREADS_INIT=1\")\n  visionos_cfgs.append(\"-DCMAKE_HAVE_LIBC_PTHREAD=1\")\n\n  return visionos_cfgs\n\n\ndef get_windows_settings(args):").data

def dawnM1 : List Char :=
  ("dawn_target_platform").data
def dawnM2 : List Char :=
  ("--ios_simulator").data
def dawnM3 : List Char :=
  ("get_ios_settings").data
def dawnM4 : List Char :=
  ("get_ios_settings").data
/-- The contents of the four Dawn files edited by `apply_patches`. -/
structure DawnTree where
  argsGni : List Char
  buildGn : List Char
  buildDawnPy : List Char
  cmakeUtilsPy : List Char

/-- One guarded rewrite: if the marker already occurs in the content the file
is left alone, otherwise the replacement is applied (and the file rewritten). -/
def guardedReplace (m n r : List Char) (c : List Char) : List Char :=
  if occursIn m c then c else pyReplace n r c

/-- Patch 1 of `apply_patches` (args.gni). -/
def patchArgsGni (c : List Char) : List Char :=
  guardedReplace dawnM1 dawnN1 dawnR1 c

/-- Patch 2 of `apply_patches` (BUILD.gn). -/
def patchBuildGn (c : List Char) : List Char :=
  guardedReplace dawnM2 dawnN2 dawnR2 c

/-- Patch 3 of `apply_patches` (build_dawn.py): three chained replacements
under one marker check. -/
def patchBuildDawnPy (c : List Char) : List Char :=
  if occursIn dawnM3 c then c
  else pyReplace dawnN3c dawnR3c (pyReplace dawnN3b dawnR3b (pyReplace dawnN3a dawnR3a c))

/-- Patch 4 of `apply_patches` (cmake_utils.py): two chained replacements
under one marker check. -/
def patchCmakeUtilsPy (c : List Char) : List Char :=
  if occursIn dawnM4 c then c
  else pyReplace dawnN4b dawnR4b (pyReplace dawnN4a dawnR4a c)

/-- `apply_patches` as a transformation of the four file contents. -/
def applyPatches (t : DawnTree) : DawnTree :=
  { argsGni := patchArgsGni t.argsGni,
    buildGn := patchBuildGn t.buildGn,
    buildDawnPy := patchBuildDawnPy t.buildDawnPy,
    cmakeUtilsPy := patchCmakeUtilsPy t.cmakeUtilsPy }

/-- Side conditions on a pattern `p` and a replacement text `r` under which
`pyReplace` with replacement `r` can neither contain nor fabricate an
occurrence of `p` except inside untouched stretches of its input: `p` does
not occur in `r`, `r` does not occur in `p`, no nonempty proper trailing part
of `p` starts `r`, and no nonempty proper leading part of `p` ends `r`. -/
structure SafeRepl (p r : List Char) : Prop where
  p_ne : p ≠ []
  p_not_in_r : ¬ OccP p r
  r_not_in_p : ¬ OccP r p
  no_tail_starts_r : ∀ x y, p = x ++ y → x ≠ [] → y ≠ [] → ¬ PreP y r
  no_head_ends_r : ∀ x y, p = x ++ y → x ≠ [] → y ≠ [] → ¬ SufP x r

/-- Executable check for `SafeRepl` (see `safeReplB_sound`). -/
def safeReplB (p r : List Char) : Bool :=
  !p.isEmpty && !(occursIn p r) && !(occursIn r p) &&
  ((List.range p.length).all fun j =>
    decide (j = 0) || !(startsWithL (p.drop j) r)) &&
  ((List.range p.length).all fun i =>
    decide (i = 0) || !(startsWithL (p.take i).reverse r.reverse))

/-! ## Concrete oracle worlds used by the witnesses and counterexamples -/

/-- A quiet non-Windows host. -/
def hostEnv0 : HostEnv :=
  { sysPlatform := "darwin", msystemVar := "", processorArchVar := "", powershellStdout := "" }

/-- A world where every external tool succeeds and every file exists. -/
def worldOk : World :=
  { host := hostEnv0,
    depotToolsExists := true,
    skiaSrcExists := true,
    depsFileExists := true,
    activateEmsdkExists := true,
    gnExecExists := true,
    runRet := fun _ => 0,
    runOut := fun _ => "",
    runErr := fun _ => "",
    fileExists := fun _ => true,
    srcTree := fun _ => none }

/-- A world identical to `worldOk` except that the framework-assembly tool
(`xcodebuild`) exits with status 1. -/
def worldXcodeFails : World :=
  { worldOk with
    runRet := fun c => if c.head? = some ("xcodebuild") then 1 else 0 }

/-- A world where every external tool fails with exit status 1. -/
def worldAllFail : World :=
  { worldOk with runRet := fun _ => 1 }

/-- The build request produced by the `xcframework` CLI pseudo-platform. -/
def reqXcframework : BuildRequest :=
  { platform := Platform.mac, config := Config.Release, archs := ["universal"],
    xcframework := true, branch := "main", shallow := false, zipAll := false }

/-- A mac release request for both real architectures. -/
def reqMacBoth : BuildRequest :=
  { platform := Platform.mac, config := Config.Release, archs := ["x86_64", "arm64"],
    xcframework := false, branch := "main", shallow := false, zipAll := false }

/-- A mac request with an architecture that is not valid for any platform. -/
def reqMacBadArch : BuildRequest :=
  { platform := Platform.mac, config := Config.Release, archs := ["sparc"],
    xcframework := false, branch := "main", shallow := false, zipAll := false }

/-- A one-header source filesystem for the header-packaging witness: the
`include` tree holds `core/SkCanvas.h` plus an `android/native.h` file under
a deny-listed directory. -/
def fsSample : String → Option FTree :=
  fun d =>
    if d = "include" then
      some (FTree.node
        [("core", FTree.node [] ["SkCanvas.h", "readme.txt"]),
         ("android", FTree.node [] ["native.h"])]
        [])
    else none

/-! # Theorems

First the generic machinery about the Python string primitives, then the
per-claim results. -/

theorem pyReplace_nil (n r : List Char) : pyReplace n r [] = [] := by
  rw [pyReplace]

theorem pyReplace_cons (n r : List Char) (c : Char) (cs : List Char) :
    pyReplace n r (c :: cs) =
      if startsWithL n (c :: cs) && !n.isEmpty then
        r ++ pyReplace n r (List.drop (n.length - 1) cs)
      else c :: pyReplace n r cs := by
  rw [pyReplace]

theorem startsWithL_iff (p s : List Char) : startsWithL p s = true ↔ PreP p s := by
  induction p generalizing s with
  | nil => simp [startsWithL, PreP]
  | cons a as ih =>
      cases s with
      | nil => simp [startsWithL, PreP]
      | cons b bs =>
          simp only [startsWithL, Bool.and_eq_true, decide_eq_true_eq, ih]
          constructor
          · rintro ⟨rfl, t, rfl⟩
            exact ⟨t, rfl⟩
          · rintro ⟨t, h⟩
            cases h
            exact ⟨rfl, t, rfl⟩

theorem occursIn_iff (p s : List Char) : occursIn p s = true ↔ OccP p s := by
  induction s with
  | nil =>
      simp only [occursIn, List.isEmpty_iff, OccP]
      constructor
      · rintro rfl; exact ⟨[], [], rfl⟩
      · rintro ⟨u, v, h⟩
        cases u <;> cases p <;> simp_all
  | cons c cs ih =>
      simp only [occursIn, Bool.or_eq_true, ih, startsWithL_iff]
      constructor
      · rintro (⟨t, h⟩ | ⟨u, v, rfl⟩)
        · exact ⟨[], t, by simpa using h⟩
        · exact ⟨c :: u, v, rfl⟩
      · rintro ⟨u, v, h⟩
        cases u with
        | nil => exact Or.inl ⟨v, by simpa using h⟩
        | cons x xs =>
            right
            rw [List.cons_append, List.cons_append] at h
            cases h
            exact ⟨xs, v, rfl⟩

theorem occ_cons_of {p : List Char} (c : Char) {t : List Char} (h : OccP p t) :
    OccP p (c :: t) := by
  obtain ⟨u, v, rfl⟩ := h
  exact ⟨c :: u, v, rfl⟩

theorem occ_cases_cons {p : List Char} {c : Char} {t : List Char} (h : OccP p (c :: t)) :
    PreP p (c :: t) ∨ OccP p t := by
  obtain ⟨u, v, hu⟩ := h
  cases u with
  | nil => exact Or.inl ⟨v, by simpa using hu⟩
  | cons x xs =>
      rw [List.cons_append, List.cons_append] at hu
      cases hu
      exact Or.inr ⟨xs, v, rfl⟩

theorem occ_append_left {p a : List Char} (b : List Char) (h : OccP p a) : OccP p (a ++ b) := by
  obtain ⟨u, v, rfl⟩ := h
  exact ⟨u, v ++ b, by simp⟩

theorem occ_append_right {p b : List Char} (a : List Char) (h : OccP p b) : OccP p (a ++ b) := by
  obtain ⟨u, v, rfl⟩ := h
  exact ⟨a ++ u, v, by simp⟩

theorem occ_of_drop {p s : List Char} (k : ℕ) (h : OccP p (s.drop k)) : OccP p s := by
  have := occ_append_right (s.take k) h
  rwa [List.take_append_drop] at this

theorem pre_append_cases {p a b : List Char} (h : PreP p (a ++ b)) :
    PreP p a ∨ ∃ y, p = a ++ y ∧ PreP y b := by
  induction a generalizing p with
  | nil =>
      exact Or.inr ⟨p, rfl, h⟩
  | cons c a' ih =>
      cases p with
      | nil => exact Or.inl ⟨c :: a', rfl⟩
      | cons d p' =>
          obtain ⟨t, ht⟩ := h
          rw [List.cons_append, List.cons_append] at ht
          injection ht with h1 h2
          subst h1
          rcases ih ⟨t, h2⟩ with hp | ⟨y, rfl, hy⟩
          · obtain ⟨t', rfl⟩ := hp
            exact Or.inl ⟨t', rfl⟩
          · exact Or.inr ⟨y, rfl, hy⟩

theorem occ_append_cases {p a b : List Char} (h : OccP p (a ++ b)) :
    OccP p a ∨ OccP p b ∨
      ∃ x y, p = x ++ y ∧ x ≠ [] ∧ y ≠ [] ∧ SufP x a ∧ PreP y b := by
  induction a with
  | nil => exact Or.inr (Or.inl (by simpa using h))
  | cons c a' ih =>
      rw [List.cons_append] at h
      rcases occ_cases_cons h with hpre | hocc
      · rcases pre_append_cases (p := p) (a := c :: a') (b := b) hpre with hp | ⟨y, rfl, hy⟩
        · obtain ⟨t, ht⟩ := hp
          exact Or.inl ⟨[], t, by simpa using ht⟩
        · cases y with
          | nil => exact Or.inl ⟨[], [], by simp⟩
          | cons e y' =>
              exact Or.inr (Or.inr ⟨c :: a', e :: y', rfl, by simp, by simp, ⟨[], rfl⟩, hy⟩)
      · rcases ih hocc with h1 | h2 | ⟨x, y, rfl, hx, hy, ⟨u, rfl⟩, hyb⟩
        · exact Or.inl (occ_cons_of c h1)
        · exact Or.inr (Or.inl h2)
        · exact Or.inr (Or.inr ⟨x, y, rfl, hx, hy, ⟨c :: u, rfl⟩, hyb⟩)

theorem pyReplace_no_occ {n : List Char} (r : List Char) {s : List Char}
    (h : occursIn n s = false) : pyReplace n r s = s := by
  induction s using pyReplace.induct n r with
  | case1 => exact pyReplace_nil n r
  | case2 c cs hcond ih =>
      exfalso
      simp only [occursIn, Bool.or_eq_false_iff] at h
      rw [Bool.and_eq_true] at hcond
      exact absurd hcond.1 (by simp [h.1])
  | case3 c cs hcond ih =>
      simp only [occursIn, Bool.or_eq_false_iff] at h
      rw [pyReplace_cons, if_neg hcond, ih h.2]

theorem pyReplace_occ {n : List Char} (r : List Char) {s : List Char}
    (hn : n ≠ []) (h : occursIn n s = true) :
    ∃ u v, pyReplace n r s = u ++ r ++ v := by
  induction s using pyReplace.induct n r with
  | case1 =>
      rw [occursIn] at h
      exact absurd (List.isEmpty_iff.mp h) hn
  | case2 c cs hcond ih =>
      refine ⟨[], pyReplace n r (List.drop (n.length - 1) cs), ?_⟩
      rw [pyReplace_cons, if_pos hcond]
      simp
  | case3 c cs hcond ih =>
      rw [occursIn, Bool.or_eq_true] at h
      rcases h with h | h
      · exfalso
        rw [Bool.and_eq_true] at hcond
        exact hcond ⟨h, by simpa using hn⟩
      · obtain ⟨u, v, hv⟩ := ih h
        refine ⟨c :: u, v, ?_⟩
        rw [pyReplace_cons, if_neg hcond, hv]
        simp

theorem frag_pre {p r : List Char} (S : SafeRepl p r) {n : List Char} (hn : n ≠ [])
    (s : List Char) :
    ∀ x y, p = x ++ y → x ≠ [] → y ≠ [] → PreP y (pyReplace n r s) → PreP y s := by
  induction s using pyReplace.induct n r with
  | case1 =>
      intro x y hp hx hy hpre
      rw [pyReplace_nil] at hpre
      obtain ⟨t, ht⟩ := hpre
      cases y with
      | nil => exact absurd rfl hy
      | cons e y' => simp at ht
  | case2 c cs hcond ih =>
      intro x y hp hx hy hpre
      exfalso
      rw [pyReplace_cons, if_pos hcond] at hpre
      rcases pre_append_cases hpre with h1 | ⟨y', hy', _⟩
      · exact S.no_tail_starts_r x y hp hx hy h1
      · exact S.r_not_in_p ⟨x, y', by rw [hp, hy', List.append_assoc]⟩
  | case3 c cs hcond ih =>
      intro x y hp hx hy hpre
      rw [pyReplace_cons, if_neg hcond] at hpre
      obtain ⟨t, ht⟩ := hpre
      cases y with
      | nil => exact absurd rfl hy
      | cons e y' =>
          rw [List.cons_append] at ht
          injection ht with h1 h2
          subst h1
          cases y' with
          | nil => exact ⟨cs, rfl⟩
          | cons f y'' =>
              have hr := ih (x ++ [c]) (f :: y'')
                (by rw [hp]; simp) (by simp) (by simp) ⟨t, h2⟩
              obtain ⟨t', ht'⟩ := hr
              exact ⟨t', by rw [ht']; simp⟩

theorem no_occ_out {p r : List Char} (S : SafeRepl p r) {n : List Char} (hn : n ≠ [])
    (s : List Char) (base : p = n ∨ ¬ OccP p s) : ¬ OccP p (pyReplace n r s) := by
  induction s using pyReplace.induct n r with
  | case1 =>
      rw [pyReplace_nil]
      rintro ⟨u, v, h⟩
      have hlen := congrArg List.length h
      simp only [List.length_nil, List.length_append] at hlen
      have hp0 : p.length = 0 := by omega
      exact S.p_ne (List.length_eq_zero.mp hp0)
  | case2 c cs hcond ih =>
      rw [pyReplace_cons, if_pos hcond]
      intro hocc
      have base' : p = n ∨ ¬ OccP p (List.drop (n.length - 1) cs) := by
        rcases base with h | h
        · exact Or.inl h
        · exact Or.inr (fun hc => h (occ_cons_of c (occ_of_drop _ hc)))
      rcases occ_append_cases hocc with h1 | h2 | ⟨x, y, hp, hx, hy, hxa, hyb⟩
      · exact S.p_not_in_r h1
      · exact ih base' h2
      · exact S.no_head_ends_r x y hp hx hy hxa
  | case3 c cs hcond ih =>
      rw [pyReplace_cons, if_neg hcond]
      intro hocc
      have base' : p = n ∨ ¬ OccP p cs := by
        rcases base with h | h
        · exact Or.inl h
        · exact Or.inr (fun hc => h (occ_cons_of c hc))
      rcases occ_cases_cons hocc with hpre | hocc'
      · -- p is a prefix of c :: pyReplace n r cs
        obtain ⟨t, ht⟩ := hpre
        cases p with
        | nil => exact absurd rfl S.p_ne
        | cons d p' =>
            rw [List.cons_append] at ht
            injection ht with h1 h2
            subst h1
            -- after substitution the head of p is c; p' starts the recursive output
            have hp' : PreP p' cs ∨ p' = [] := by
              cases p' with
              | nil => exact Or.inr rfl
              | cons f p'' =>
                  exact Or.inl (frag_pre S hn cs [c] (f :: p'')
                    rfl (by simp) (by simp) ⟨t, h2⟩)
            have hps : PreP (c :: p') (c :: cs) := by
              rcases hp' with ⟨t', rfl⟩ | rfl
              · exact ⟨t', rfl⟩
              · exact ⟨cs, rfl⟩
            rcases base' with rfl | hno
            · -- p = n but n does not match at the head: contradiction
              rw [Bool.and_eq_true] at hcond
              exact hcond ⟨(startsWithL_iff _ _).mpr hps, by simpa using hn⟩
            · rcases base with rfl | hnos
              · rw [Bool.and_eq_true] at hcond
                exact hcond ⟨(startsWithL_iff _ _).mpr hps, by simpa using hn⟩
              · obtain ⟨t', ht'⟩ := hps
                exact hnos ⟨[], t', by rw [ht']; simp⟩
      · exact ih base' hocc'

theorem safeReplB_sound {p r : List Char} (h : safeReplB p r = true) : SafeRepl p r := by
  rw [safeReplB] at h
  simp only [Bool.and_eq_true, Bool.not_eq_true', List.all_eq_true, List.mem_range,
    Bool.or_eq_true, decide_eq_true_eq] at h
  obtain ⟨⟨⟨⟨hne, hpr⟩, hrp⟩, hc2⟩, hc3⟩ := h
  refine ⟨?_, ?_, ?_, ?_, ?_⟩
  · simpa [List.isEmpty_iff] using hne
  · intro hocc
    rw [← occursIn_iff] at hocc
    rw [hocc] at hpr
    cases hpr
  · intro hocc
    rw [← occursIn_iff] at hocc
    rw [hocc] at hrp
    cases hrp
  · intro x y hp hx hy hpre
    have hxlen : 0 < x.length := List.length_pos.mpr hx
    have hylen : 0 < y.length := List.length_pos.mpr hy
    have hplen : p.length = x.length + y.length := by rw [hp]; simp
    have hj := hc2 x.length (by omega)
    rcases hj with hj | hj
    · omega
    · have : p.drop x.length = y := by rw [hp, List.drop_left]
      rw [this] at hj
      rw [(startsWithL_iff _ _).mpr hpre] at hj
      cases hj
  · intro x y hp hx hy hsuf
    have hxlen : 0 < x.length := List.length_pos.mpr hx
    have hylen : 0 < y.length := List.length_pos.mpr hy
    have hplen : p.length = x.length + y.length := by rw [hp]; simp
    have hi := hc3 x.length (by omega)
    rcases hi with hi | hi
    · omega
    · have htake : p.take x.length = x := by rw [hp, List.take_left]
      rw [htake] at hi
      obtain ⟨u, hu⟩ := hsuf
      have : PreP x.reverse r.reverse := ⟨u.reverse, by rw [hu]; simp⟩
      rw [(startsWithL_iff _ _).mpr this] at hi
      cases hi

theorem occursIn_false_of_not_occ {p s : List Char} (h : ¬ OccP p s) :
    occursIn p s = false := by
  rw [← Bool.not_eq_true, occursIn_iff]
  exact h

theorem guardedReplace_idem_self {n r : List Char} (S : SafeRepl n r) (m c : List Char) :
    guardedReplace m n r (guardedReplace m n r c) = guardedReplace m n r c := by
  by_cases h : occursIn m c = true
  · have h1 : guardedReplace m n r c = c := by rw [guardedReplace, if_pos h]
    rw [h1]
    exact h1
  · have h1 : guardedReplace m n r c = pyReplace n r c := by rw [guardedReplace, if_neg h]
    rw [h1]
    have hout : ¬ OccP n (pyReplace n r c) := no_occ_out S S.p_ne c (Or.inl rfl)
    by_cases h2 : occursIn m (pyReplace n r c) = true
    · rw [guardedReplace, if_pos h2]
    · rw [guardedReplace, if_neg h2, pyReplace_no_occ r (occursIn_false_of_not_occ hout)]

theorem guardedReplace_idem_marker {n r m : List Char} (hn : n ≠ []) (hm : OccP m r)
    (c : List Char) :
    guardedReplace m n r (guardedReplace m n r c) = guardedReplace m n r c := by
  by_cases h : occursIn m c = true
  · have h1 : guardedReplace m n r c = c := by rw [guardedReplace, if_pos h]
    rw [h1]
    exact h1
  · have h1 : guardedReplace m n r c = pyReplace n r c := by rw [guardedReplace, if_neg h]
    rw [h1]
    by_cases hocc : occursIn n c = true
    · obtain ⟨u, v, hv⟩ := pyReplace_occ r hn hocc
      have hmout : OccP m (pyReplace n r c) := by
        rw [hv, List.append_assoc]
        exact occ_append_right u (occ_append_left v hm)
      rw [guardedReplace, if_pos ((occursIn_iff _ _).mpr hmout)]
    · have hno : occursIn n c = false := by
        rw [← Bool.not_eq_true]
        exact hocc
      rw [pyReplace_no_occ r hno, guardedReplace, if_neg h, pyReplace_no_occ r hno]

-- three chained replacements under one marker (patch 3)
theorem chain3_idem {na ra nb rb nc rc m : List Char}
    (Saa : SafeRepl na ra) (Sab : SafeRepl na rb) (Sac : SafeRepl na rc)
    (Sbb : SafeRepl nb rb) (Sbc : SafeRepl nb rc) (Scc : SafeRepl nc rc)
    (c : List Char)
    (f : List Char → List Char)
    (hf : ∀ x, f x = if occursIn m x then x
      else pyReplace nc rc (pyReplace nb rb (pyReplace na ra x))) :
    f (f c) = f c := by
  by_cases h : occursIn m c = true
  · have h1 : f c = c := by rw [hf, if_pos h]
    rw [h1]
    exact h1
  · have h1 : f c = pyReplace nc rc (pyReplace nb rb (pyReplace na ra c)) := by
      rw [hf, if_neg h]
    rw [h1]
    set s1 := pyReplace na ra c with hs1
    set s2 := pyReplace nb rb s1 with hs2
    set out := pyReplace nc rc s2 with hExpr
    have hA1 : ¬ OccP na s1 := no_occ_out Saa Saa.p_ne c (Or.inl rfl)
    have hA2 : ¬ OccP na s2 := no_occ_out Sab Sbb.p_ne s1 (Or.inr hA1)
    have hA3 : ¬ OccP na out := no_occ_out Sac Scc.p_ne s2 (Or.inr hA2)
    have hB2 : ¬ OccP nb s2 := no_occ_out Sbb Sbb.p_ne s1 (Or.inl rfl)
    have hB3 : ¬ OccP nb out := no_occ_out Sbc Scc.p_ne s2 (Or.inr hB2)
    have hC3 : ¬ OccP nc out := no_occ_out Scc Scc.p_ne s2 (Or.inl rfl)
    by_cases h2 : occursIn m out = true
    · rw [hf, if_pos h2]
    · rw [hf, if_neg h2,
        pyReplace_no_occ ra (occursIn_false_of_not_occ hA3),
        pyReplace_no_occ rb (occursIn_false_of_not_occ hB3),
        pyReplace_no_occ rc (occursIn_false_of_not_occ hC3)]

-- two chained replacements, second one reinserting its needle but containing
-- the marker (patch 4)
theorem chain2_idem {na ra nb rb m : List Char}
    (Saa : SafeRepl na ra) (hnb : nb ≠ []) (hm : OccP m rb)
    (c : List Char)
    (f : List Char → List Char)
    (hf : ∀ x, f x = if occursIn m x then x
      else pyReplace nb rb (pyReplace na ra x)) :
    f (f c) = f c := by
  by_cases h : occursIn m c = true
  · have h1 : f c = c := by rw [hf, if_pos h]
    rw [h1]
    exact h1
  · have h1 : f c = pyReplace nb rb (pyReplace na ra c) := by rw [hf, if_neg h]
    rw [h1]
    set s1 := pyReplace na ra c with hs1
    have hA1 : ¬ OccP na s1 := no_occ_out Saa Saa.p_ne c (Or.inl rfl)
    by_cases hB : occursIn nb s1 = true
    · obtain ⟨u, v, hv⟩ := pyReplace_occ rb hnb hB
      have hmout : OccP m (pyReplace nb rb s1) := by
        rw [hv, List.append_assoc]
        exact occ_append_right u (occ_append_left v hm)
      rw [hf, if_pos ((occursIn_iff _ _).mpr hmout)]
    · have hBno : occursIn nb s1 = false := by
        rw [← Bool.not_eq_true]
        exact hB
      rw [pyReplace_no_occ rb hBno]
      by_cases h2 : occursIn m s1 = true
      · rw [hf, if_pos h2]
      · rw [hf, if_neg h2,
          pyReplace_no_occ ra (occursIn_false_of_not_occ hA1),
          pyReplace_no_occ rb hBno]

set_option maxRecDepth 10000

theorem safe1 : SafeRepl dawnN1 dawnR1 := safeReplB_sound (by decide)

theorem safe3aa : SafeRepl dawnN3a dawnR3a := safeReplB_sound (by decide)

theorem safe3ab : SafeRepl dawnN3a dawnR3b := safeReplB_sound (by decide)

theorem safe3ac : SafeRepl dawnN3a dawnR3c := safeReplB_sound (by decide)

theorem safe3bb : SafeRepl dawnN3b dawnR3b := safeReplB_sound (by decide)

theorem safe3bc : SafeRepl dawnN3b dawnR3c := safeReplB_sound (by decide)

theorem safe3cc : SafeRepl dawnN3c dawnR3c := safeReplB_sound (by decide)

theorem safe4aa : SafeRepl dawnN4a dawnR4a := safeReplB_sound (by decide)

theorem occ_m2_r2 : OccP dawnM2 dawnR2 :=
  (occursIn_iff _ _).mp (by decide)

theorem occ_m4_r4b : OccP dawnM4 dawnR4b :=
  (occursIn_iff _ _).mp (by decide)

theorem dawnN2_ne : dawnN2 ≠ [] := by decide

theorem dawnN4b_ne : dawnN4b ≠ [] := by decide

theorem patchArgsGni_idem (c : List Char) :
    patchArgsGni (patchArgsGni c) = patchArgsGni c :=
  guardedReplace_idem_self safe1 dawnM1 c

theorem patchBuildGn_idem (c : List Char) :
    patchBuildGn (patchBuildGn c) = patchBuildGn c :=
  guardedReplace_idem_marker dawnN2_ne occ_m2_r2 c

theorem patchBuildDawnPy_idem (c : List Char) :
    patchBuildDawnPy (patchBuildDawnPy c) = patchBuildDawnPy c :=
  chain3_idem safe3aa safe3ab safe3ac safe3bb safe3bc safe3cc c
    patchBuildDawnPy (fun _ => rfl)

theorem patchCmakeUtilsPy_idem (c : List Char) :
    patchCmakeUtilsPy (patchCmakeUtilsPy c) = patchCmakeUtilsPy c :=
  chain2_idem safe4aa dawnN4b_ne occ_m4_r4b c
    patchCmakeUtilsPy (fun _ => rfl)

/-- Claim C10: the external-library patching utility is idempotent — for
every source tree, applying `apply_patches` a second time leaves every
patched file content exactly as it was after the first application, each of
the four patches being guarded by a marker-substring check that rewrites its
target file only when the marker is absent. -/
theorem apply_patches_idempotent (t : DawnTree) :
    applyPatches (applyPatches t) = applyPatches t := by
  cases t
  simp only [applyPatches, patchArgsGni_idem, patchBuildGn_idem,
    patchBuildDawnPy_idem, patchCmakeUtilsPy_idem]


-- String structure helpers
theorem strAppend_assoc (a b c : String) : a ++ b ++ c = a ++ (b ++ c) := by
  apply String.ext
  simp only [String.data_append, List.append_assoc]

/-- The decomposition of the synthesized flag text into its
configuration-dependent head and its per-platform tail. -/
theorem genGnArgs_decomp (p : Platform) (cfg : Config) (arch : String) (h : Bool) :
    genGnArgs p cfg arch h = cfgBlock p cfg ++ targetCpuArgs p cfg arch h := by
  cases p <;> cases cfg <;>
    simp only [genGnArgs, cfgBlock, targetCpuArgs, reduceIte]
  all_goals try split_ifs
  all_goals
    (apply String.ext
     simp only [String.data_append, List.append_assoc, List.nil_append, List.append_nil])

/-- Claim C3: in the Debug configuration the synthesizer emits only the basic
args plus the minimal debug flag before the per-platform tail (no platform
flag table, no shared release flag table); in Release it emits the platform
table, then the shared release table, then forces `is_debug = false` and
`is_official_build = true`; the per-platform tail carries the target-CPU
mapping (raw arch on mac, the fixed arm64/x64 id on iOS, the unified
x86/x64 naming on Windows, wasm on wasm) and, on Windows, starts with the
configuration-dependent runtime-linkage flag. -/
theorem gn_args_structure (p : Platform) (cfg : Config) (arch : String) (h : Bool) :
    genGnArgs p Config.Debug arch h
        = BASIC_GN_ARGS ++ "is_debug = true\n" ++ targetCpuArgs p Config.Debug arch h
    ∧ genGnArgs p Config.Release arch h
        = BASIC_GN_ARGS ++ PLATFORM_GN_ARGS p ++ RELEASE_GN_ARGS ++ "is_debug = false\n"
            ++ "is_official_build = true\n" ++ targetCpuArgs p Config.Release arch h
    ∧ targetCpuArgs Platform.mac cfg arch h = "target_cpu = \"" ++ arch ++ "\""
    ∧ targetCpuArgs Platform.ios cfg arch h
        = "target_cpu = \"" ++ (if arch = "arm64" then "arm64" else "x64") ++ "\""
    ∧ (∃ rest, targetCpuArgs Platform.win cfg arch h
        = "extra_cflags = [\"" ++ (if cfg = Config.Debug then "/MTd" else "/MT") ++ "\"]\n" ++ rest)
    ∧ targetCpuArgs Platform.wasm cfg arch h = "target_cpu = \"wasm\"\n" := by
  refine ⟨?_, ?_, rfl, rfl, ?_, rfl⟩
  · rw [genGnArgs_decomp, cfgBlock, if_pos rfl]
  · rw [genGnArgs_decomp, cfgBlock, if_neg (by decide)]
  · exact ⟨_, strAppend_assoc _ _ _⟩

-- Python strip head lemmas, for the summary/generator inequality
theorem dropWhile_append_singleton {p : Char → Bool} {c : Char} (hc : p c = false)
    (l : List Char) : ∃ z, (l ++ [c]).dropWhile p = z ++ [c] := by
  induction l with
  | nil =>
      refine ⟨[], ?_⟩
      simp [List.dropWhile, hc]
  | cons a l' ih =>
      by_cases ha : p a = true
      · obtain ⟨z, hz⟩ := ih
        refine ⟨z, ?_⟩
        simp [List.dropWhile, ha, hz]
      · refine ⟨a :: l', ?_⟩
        simp [List.dropWhile, ha]

theorem head?_strip_right {c : Char} (hc : pyWS c = false) (t : List Char) :
    (((c :: t).reverse.dropWhile pyWS).reverse).head? = some c := by
  rw [List.reverse_cons]
  obtain ⟨z, hz⟩ := dropWhile_append_singleton hc t.reverse
  rw [hz, List.reverse_append]
  rfl

theorem head?_pyStripL_nl_c (l : List Char) :
    (pyStripL ('\n' :: 'c' :: l)).head? = some 'c' := by
  rw [pyStripL]
  have h1 : ('\n' :: 'c' :: l).dropWhile pyWS = 'c' :: l := by
    rw [List.dropWhile_cons_of_pos (by decide), List.dropWhile_cons_of_neg (by decide)]
  rw [h1]
  exact head?_strip_right (by decide) l

theorem summary_head (p : Platform) (cfg : Config) (arch : String) :
    (genGnArgsSummary p cfg arch).data.head? = some 'c' := by
  cases p <;> cases cfg <;>
    (rw [genGnArgsSummary]
     simp only [pyStrip, String.data_append]
     exact head?_pyStripL_nl_c _)

theorem gnargs_head (p : Platform) (cfg : Config) (arch : String) (h : Bool) :
    (genGnArgs p cfg arch h).data.head? = some '\n' := by
  rw [genGnArgs_decomp]
  cases cfg <;>
    (simp only [cfgBlock, String.data_append, reduceIte]
     rfl)

/-- Claim C5 (amended): the flag text recorded per architecture in the
persisted summary file never equals the flag text passed to the external
build-file generator for the same platform, configuration and architecture —
the summary is whitespace-stripped (so it starts with the `cc` flag while
the generator text starts with a newline), always embeds the platform and
release tables regardless of configuration, and omits the per-platform
post-processing. -/
theorem summary_never_equals_generator (p : Platform) (cfg : Config) (arch : String) (h : Bool) :
    genGnArgsSummary p cfg arch ≠ genGnArgs p cfg arch h := by
  intro he
  have hh := congrArg (fun s => s.data.head?) he
  simp only [summary_head, gnargs_head] at hh
  cases hh


/-- Claim C8: the Argument Synthesizer mutates no state (the host
environment it reads is returned unchanged), so calling it twice in
succession with identical (platform, configuration, architecture) inputs
produces byte-identical flag text. -/
theorem synthesizer_idempotent (e : HostEnv) (p : Platform) (cfg : Config) (arch : String) :
    (generateGnArgsCall e p cfg arch).2 = e
    ∧ (generateGnArgsCall ((generateGnArgsCall e p cfg arch).2) p cfg arch).1
        = (generateGnArgsCall e p cfg arch).1 :=
  ⟨rfl, rfl⟩

/-- Counterexample for claim C5 as stated: at (mac, Debug, x86_64) the
recorded summary text differs from the text passed to the generator. -/
theorem summary_differs_from_generator_concrete :
    genGnArgsSummary Platform.mac Config.Debug "x86_64"
      ≠ genGnArgs Platform.mac Config.Debug "x86_64" false := by
  decide

-- Out sequencing helpers
theorem seq_of_some {a : Out} {k : Nat} (h : a.exit = some k) (b : Out) : a.seq b = a := by
  rw [Out.seq, h]

theorem seq_events_of_none {a : Out} (b : Out) (h : a.exit = none) :
    (a.seq b).events = a.events ++ b.events := by
  rw [Out.seq, h]

theorem seq_exit_of_none {a : Out} (b : Out) (h : a.exit = none) :
    (a.seq b).exit = b.exit := by
  rw [Out.seq, h]

-- validate_archs behaviour
theorem validateArchs_accepts {p : Platform} {archs : List String}
    (h : ∀ a ∈ archs, a ∈ validArchs p) : validateArchs p archs = Out.ret := by
  induction archs with
  | nil => rfl
  | cons a rest ih =>
      rw [validateArchs, if_pos (h a (List.mem_cons_self a rest))]
      exact ih (fun x hx => h x (List.mem_cons_of_mem a hx))

theorem validateArchs_rejects {p : Platform} {archs : List String}
    (h : ∃ a ∈ archs, a ∉ validArchs p) :
    (validateArchs p archs).exit = some 1
    ∧ ∀ e ∈ (validateArchs p archs).events, e.isCmd = false := by
  induction archs with
  | nil =>
      obtain ⟨a, ha, _⟩ := h
      cases ha
  | cons a rest ih =>
      by_cases hm : a ∈ validArchs p
      · rw [validateArchs, if_pos hm]
        apply ih
        obtain ⟨b, hb, hnb⟩ := h
        rcases List.mem_cons.mp hb with rfl | hb'
        · exact absurd hm hnb
        · exact ⟨b, hb', hnb⟩
      · rw [validateArchs, if_neg hm]
        refine ⟨rfl, ?_⟩
        intro e he
        simp only [Out.die, List.mem_singleton] at he
        rw [he]
        rfl

/-- Claim C2: the per-platform valid-architecture sets are exactly
mac = x86_64/arm64/universal, ios = x86_64/arm64, win = x64/Win32/arm64,
wasm = wasm32; validation accepts any request whose architectures all lie in
the platform set, and a request containing any other architecture string
makes the pipeline exit with status 1 before launching a single external
process. -/
theorem arch_validation_gate (r : BuildRequest) (w : World) :
    (validArchs Platform.mac = ["x86_64", "arm64", "universal"]
      ∧ validArchs Platform.ios = ["x86_64", "arm64"]
      ∧ validArchs Platform.win = ["x64", "Win32", "arm64"]
      ∧ validArchs Platform.wasm = ["wasm32"])
    ∧ ((∀ a ∈ r.archs, a ∈ validArchs r.platform) →
        validateArchs r.platform r.archs = Out.ret)
    ∧ ((∃ a ∈ r.archs, a ∉ validArchs r.platform) →
        (runPipeline r w).exit = some 1
        ∧ ∀ e ∈ (runPipeline r w).events, e.isCmd = false) := by
  refine ⟨⟨rfl, rfl, rfl, rfl⟩, validateArchs_accepts, ?_⟩
  intro h
  have hv := validateArchs_rejects (p := r.platform) h
  obtain ⟨k, hk⟩ : ∃ k, (validateArchs r.platform r.archs).exit = some k :=
    ⟨1, hv.1⟩
  have hrun : runPipeline r w = validateArchs r.platform r.archs := by
    rw [runPipeline]
    exact seq_of_some hk _
  rw [hrun]
  exact hv

theorem arch_validation_gate_witness :
    (∃ a ∈ reqMacBadArch.archs, a ∉ validArchs reqMacBadArch.platform)
    ∧ ((runPipeline reqMacBadArch worldOk).exit = some 1
       ∧ ∀ e ∈ (runPipeline reqMacBadArch worldOk).events, e.isCmd = false) :=
  ⟨⟨"sparc", by decide, by decide⟩,
   (arch_validation_gate reqMacBadArch worldOk).2.2 ⟨"sparc", by decide, by decide⟩⟩


theorem strAppend_left_cancel {s a b : String} (h : s ++ a = s ++ b) : a = b := by
  have hd := congrArg String.data h
  rw [String.data_append, String.data_append] at hd
  exact String.ext (List.append_cancel_left hd)

/-- Claim C7: artifact collection is best-effort — the collector never
terminates the process; every library of the platform list present in the
architecture output tree is copied to the destination keyed by platform,
configuration and architecture and then removed from the output tree, and an
absent library only produces a warning (and is never copied). -/
theorem move_libs_best_effort (w : World) (p : Platform) (cfg : Config) (arch : String) :
    (moveLibsStep w p cfg arch).exit = none
    ∧ ∀ lib ∈ LIBS p,
        (w.fileExists (outputDirOf p cfg arch ++ "/" ++ lib) = true →
          Ev.copyF (outputDirOf p cfg arch ++ "/" ++ lib) (destDirOf p cfg arch ++ "/" ++ lib)
              ∈ (moveLibsStep w p cfg arch).events
          ∧ Ev.unlinkF (outputDirOf p cfg arch ++ "/" ++ lib)
              ∈ (moveLibsStep w p cfg arch).events)
        ∧ (w.fileExists (outputDirOf p cfg arch ++ "/" ++ lib) = false →
          Ev.echo ("Warning: " ++ lib ++ " not found in " ++ outputDirOf p cfg arch)
              ∈ (moveLibsStep w p cfg arch).events
          ∧ ∀ d, Ev.copyF (outputDirOf p cfg arch ++ "/" ++ lib) d
              ∉ (moveLibsStep w p cfg arch).events) := by
  refine ⟨rfl, ?_⟩
  intro lib hlib
  constructor
  · intro hex
    constructor
    · simp only [moveLibsStep, Out.emit, List.singleton_append, List.mem_cons]
      refine Or.inr (List.mem_flatMap.mpr ⟨lib, hlib, ?_⟩)
      rw [if_pos hex]
      simp
    · simp only [moveLibsStep, Out.emit, List.singleton_append, List.mem_cons]
      refine Or.inr (List.mem_flatMap.mpr ⟨lib, hlib, ?_⟩)
      rw [if_pos hex]
      simp
  · intro hex
    constructor
    · simp only [moveLibsStep, Out.emit, List.singleton_append, List.mem_cons]
      refine Or.inr (List.mem_flatMap.mpr ⟨lib, hlib, ?_⟩)
      rw [if_neg (by simp [hex])]
      simp
    · intro d hd
      simp only [moveLibsStep, Out.emit, List.singleton_append, List.mem_cons] at hd
      rcases hd with hd | hd
      · cases hd
      · obtain ⟨lib', hlib', hmem⟩ := List.mem_flatMap.mp hd
        by_cases hex' : w.fileExists (outputDirOf p cfg arch ++ "/" ++ lib') = true
        · rw [if_pos hex'] at hmem
          simp only [List.mem_cons, List.not_mem_nil, or_false] at hmem
          rcases hmem with hmem | hmem | hmem
          · injection hmem with h1 h2
            have : lib = lib' := strAppend_left_cancel h1
            rw [← this] at hex'
            rw [hex'] at hex
            cases hex
          · exact absurd hmem (by simp)
          · exact absurd hmem (by simp)
        · rw [if_neg hex'] at hmem
          simp only [List.mem_cons, List.not_mem_nil, or_false] at hmem
          exact absurd hmem (by simp)

-- C1: the three external tools of the pipeline
theorem gn_failure (w : World) (p : Platform) (cfg : Config) (arch : String)
    (hg : w.gnExecExists = true) (hf : w.runRet (gnCmdOf w p cfg arch) ≠ 0) :
    (generateGnArgsStep w p cfg arch).exit = some 1
    ∧ Ev.echo ("Return code: " ++ toString (w.runRet (gnCmdOf w p cfg arch)))
        ∈ (generateGnArgsStep w p cfg arch).events
    ∧ Ev.echo ("stdout: " ++ w.runOut (gnCmdOf w p cfg arch))
        ∈ (generateGnArgsStep w p cfg arch).events
    ∧ Ev.echo ("stderr: " ++ w.runErr (gnCmdOf w p cfg arch))
        ∈ (generateGnArgsStep w p cfg arch).events
    ∧ (generateGnArgsStep w p cfg arch).events.filterMap Ev.getCmd = [gnCmdOf w p cfg arch] := by
  have hstep : generateGnArgsStep w p cfg arch =
      ⟨[Ev.echo ("Generating gn args for " ++ platName p ++ " " ++ arch ++ " settings:"),
        Ev.echo (genGnArgs p cfg arch (is_arm64_host w.host)),
        Ev.echo "Environment information:",
        Ev.cmd (gnCmdOf w p cfg arch),
        Ev.echo "Error running gn gen:",
        Ev.echo ("Return code: " ++ toString (w.runRet (gnCmdOf w p cfg arch))),
        Ev.echo ("stdout: " ++ w.runOut (gnCmdOf w p cfg arch)),
        Ev.echo ("stderr: " ++ w.runErr (gnCmdOf w p cfg arch))], some 1⟩ := by
    rw [generateGnArgsStep]
    rw [hg]
    rw [if_neg (by simp), if_pos hf]
    rfl
  rw [hstep]
  refine ⟨rfl, by simp, by simp, by simp, ?_⟩
  simp [List.filterMap, Ev.getCmd]

theorem ninja_failure (w : World) (p : Platform) (cfg : Config) (arch : String)
    (hf : w.runRet (ninjaCmdOf w p cfg arch) ≠ 0) :
    (buildSkiaStep w p cfg arch).exit = some 1
    ∧ Ev.echo ("Ninja command: " ++ joinWith " " (ninjaCmdOf w p cfg arch))
        ∈ (buildSkiaStep w p cfg arch).events
    ∧ (buildSkiaStep w p cfg arch).events.filterMap Ev.getCmd = [ninjaCmdOf w p cfg arch] := by
  have hstep : buildSkiaStep w p cfg arch =
      Out.die 1
        [Ev.cmd (ninjaCmdOf w p cfg arch),
         Ev.echo ("Error: Build failed for " ++ platName p ++ " " ++ arch),
         Ev.echo ("Ninja command: " ++ joinWith " " (ninjaCmdOf w p cfg arch)),
         Ev.echo ("Error details: returned non-zero exit status "
           ++ toString (w.runRet (ninjaCmdOf w p cfg arch)))] := by
    rw [buildSkiaStep, if_neg hf]
  rw [hstep]
  refine ⟨rfl, by simp [Out.die], ?_⟩
  simp [Out.die, List.filterMap, Ev.getCmd]

theorem xcode_failure (w : World) (wh : Bool) (hf : w.runRet (xcframeworkCmd wh) ≠ 0) :
    (createXcframework w wh).exit = none
    ∧ Ev.echo ("Command: " ++ joinWith " " (xcframeworkCmd wh))
        ∈ (createXcframework w wh).events
    ∧ Ev.cmd (xcframeworkCmd wh) ∈ (createXcframework w wh).events
    ∧ (createXcframework w wh).events.filterMap Ev.getCmd = [xcframeworkCmd wh] := by
  have hstep : createXcframework w wh =
      ⟨([Ev.echo "Creating Skia XCFramework...",
         Ev.mkdirF (BASE_DIR ++ "/xcframework")] ++
        (if w.fileExists (BASE_DIR ++ "/xcframework/Skia.xcframework") then
          [Ev.rmtreeF (BASE_DIR ++ "/xcframework/Skia.xcframework")] else [])) ++
       [Ev.cmd (xcframeworkCmd wh),
        Ev.echo "Error creating Skia XCFramework",
        Ev.echo ("Command: " ++ joinWith " " (xcframeworkCmd wh)),
        Ev.echo ("Error details: returned non-zero exit status "
          ++ toString (w.runRet (xcframeworkCmd wh)))], none⟩ := by
    rw [createXcframework]
    rw [if_neg hf]
    rfl
  rw [hstep]
  refine ⟨rfl, by simp, by simp, ?_⟩
  by_cases hfe : w.fileExists (BASE_DIR ++ "/xcframework/Skia.xcframework") = true <;>
    simp [hfe, Ev.getCmd, List.filterMap_append, List.filterMap]



/-- Counterexample for claim C1 as stated: in a full xcframework pipeline
run where the framework-assembly tool exits with status 1, the pipeline
records the failing command and the error message but finishes without any
`sys.exit` (so the process ends with exit status 0). -/
theorem xcframework_failure_swallowed :
    worldXcodeFails.runRet (xcframeworkCmd true) = 1
    ∧ (runPipeline reqXcframework worldXcodeFails).exit = none
    ∧ Ev.cmd (xcframeworkCmd true) ∈ (runPipeline reqXcframework worldXcodeFails).events
    ∧ Ev.echo "Error creating Skia XCFramework"
        ∈ (runPipeline reqXcframework worldXcodeFails).events := by
  refine ⟨by decide, by decide, by decide, by decide⟩

-- step termination facts used to assemble the pipeline trace
theorem forEachSeq_exit_none {α : Type} {f : α → Out} {l : List α}
    (h : ∀ x ∈ l, (f x).exit = none) : (forEachSeq f l).exit = none := by
  induction l with
  | nil => rfl
  | cons x xs ih =>
      rw [forEachSeq, seq_exit_of_none _ (h x (List.mem_cons_self x xs))]
      exact ih (fun y hy => h y (List.mem_cons_of_mem x hy))

theorem runChecked_ok {w : World} {c : List String} (hr : w.runRet c = 0) :
    runChecked w c = Out.emit [Ev.cmd c] := by
  rw [runChecked, if_pos hr]

theorem setupDepotTools_exit {w : World} (hr : ∀ c, w.runRet c = 0) :
    (setupDepotTools w).exit = none := by
  rw [setupDepotTools]
  by_cases h : w.depotToolsExists = true
  · rw [if_pos h]; rfl
  · rw [if_neg h, runChecked_ok (hr _)]; rfl

theorem setupPython3_if_exit (w : World) :
    ((if winHost w then setupPython3OnWindows w else Out.ret) : Out).exit = none := by
  by_cases h : winHost w = true
  · rw [if_pos h, setupPython3OnWindows, if_pos h]; rfl
  · rw [if_neg h]; rfl

theorem setupSkiaRepo_exit {w : World} (hr : ∀ c, w.runRet c = 0) (br : String) (sh : Bool) :
    (setupSkiaRepo w br sh).exit = none := by
  rw [setupSkiaRepo]
  by_cases h : w.skiaSrcExists = true
  · simp only [h, not_true, if_neg, ite_false, reduceIte]
    rw [runChecked_ok (hr _), runChecked_ok (hr _), runChecked_ok (hr _)]
    rfl
  · simp only [h, not_false_iff, if_pos, ite_true, reduceIte]
    rw [runChecked_ok (hr _)]
    rfl

theorem modifyDeps_if_exit {w : World} (hd : w.depsFileExists = true) (cfg : Config) :
    ((if cfg = Config.Release then modifyDeps w else Out.ret) : Out).exit = none := by
  by_cases h : cfg = Config.Release
  · rw [if_pos h, modifyDeps, if_neg (by rw [hd]; exact fun hc => hc rfl)]
    rfl
  · rw [if_neg h]; rfl

theorem patchActivateEmsdk_exit (w : World) : (patchActivateEmsdk w).exit = none := by
  rw [patchActivateEmsdk]
  by_cases h : w.activateEmsdkExists = true
  · simp only [h, not_true, reduceIte]
    rfl
  · simp only [h, not_false_iff, reduceIte]
    rfl

theorem syncDeps_exit {w : World} (hr : ∀ c, w.runRet c = 0) : (syncDeps w).exit = none := by
  rw [syncDeps]
  rw [seq_exit_of_none _ (by rfl), seq_exit_of_none _ (patchActivateEmsdk_exit w)]
  by_cases h : winHost w = true
  · rw [if_pos h, runChecked_ok (hr _)]; rfl
  · rw [if_neg h, runChecked_ok (hr _)]; rfl

theorem generateGnArgsStep_exit {w : World} (hr : ∀ c, w.runRet c = 0)
    (hg : w.gnExecExists = true) (p : Platform) (cfg : Config) (arch : String) :
    (generateGnArgsStep w p cfg arch).exit = none := by
  rw [generateGnArgsStep]
  rw [seq_exit_of_none _ (by rfl)]
  rw [if_neg (by rw [hg]; exact fun hc => hc rfl)]
  rw [seq_exit_of_none _ (by rfl)]
  rw [if_neg (by rw [hr]; exact fun hc => hc rfl)]
  rfl

theorem buildSkiaStep_exit {w : World} (hr : ∀ c, w.runRet c = 0)
    (p : Platform) (cfg : Config) (arch : String) :
    (buildSkiaStep w p cfg arch).exit = none := by
  rw [buildSkiaStep, if_pos (hr _)]
  rfl

theorem archLoop_exit {w : World} (hr : ∀ c, w.runRet c = 0) (hg : w.gnExecExists = true)
    (p : Platform) (cfg : Config) (archs : List String) :
    (forEachSeq (fun arch =>
       (generateGnArgsStep w p cfg arch).seq <|
       (buildSkiaStep w p cfg arch).seq <|
       moveLibsStep w p cfg arch) archs).exit = none := by
  apply forEachSeq_exit_none
  intro arch _
  rw [seq_exit_of_none _ (generateGnArgsStep_exit hr hg p cfg arch),
      seq_exit_of_none _ (buildSkiaStep_exit hr p cfg arch)]
  rfl

theorem createUniversalBinary_eval {w : World} (hr : ∀ c, w.runRet c = 0) (cfg : Config) :
    createUniversalBinary w Platform.mac cfg =
      ⟨[Ev.echo "Creating universal files...",
        Ev.mkdirF (MAC_LIB_DIR ++ "/" ++ cfgName cfg)]
        ++ (LIBS Platform.mac).flatMap (fun lib =>
             [Ev.cmd (lipoCmd cfg lib), Ev.echo ("Created universal file: " ++ lib)])
        ++ [Ev.rmtreeF (MAC_LIB_DIR ++ "/" ++ cfgName cfg ++ "/x86_64"),
            Ev.rmtreeF (MAC_LIB_DIR ++ "/" ++ cfgName cfg ++ "/arm64")], none⟩ := by
  rw [createUniversalBinary]
  simp only [LIBS, USE_LIBGRAPHEME, Bool.false_eq_true, reduceIte, forEachSeq,
    runChecked, hr, Out.seq, Out.emit, List.flatMap_cons, List.flatMap_nil]
  rfl

/-- Claim C4: in a mac run with architecture list exactly
["x86_64", "arm64"] whose per-architecture builds all succeed, the pipeline
trace contains the universal-binary step, that step invokes the external
fusing tool (`lipo`) exactly once per library of the mac library list — its
command list is exactly one fusing command per library, and those commands
are pairwise distinct — and afterwards (as its final two events) removes
both architecture-specific subdirectories, leaving only the
architecture-less destination populated. -/
theorem universal_binary_step (cfg : Config) (br : String) (sh za : Bool) (w : World)
    (hr : ∀ c, w.runRet c = 0) (hg : w.gnExecExists = true) (hd : w.depsFileExists = true) :
    ∃ pre post,
      (runPipeline ⟨Platform.mac, cfg, ["x86_64", "arm64"], false, br, sh, za⟩ w).events
        = pre ++ (createUniversalBinary w Platform.mac cfg).events ++ post
      ∧ (createUniversalBinary w Platform.mac cfg).events
          = [Ev.echo "Creating universal files...",
             Ev.mkdirF (MAC_LIB_DIR ++ "/" ++ cfgName cfg)]
            ++ (LIBS Platform.mac).flatMap (fun lib =>
                 [Ev.cmd (lipoCmd cfg lib), Ev.echo ("Created universal file: " ++ lib)])
            ++ [Ev.rmtreeF (MAC_LIB_DIR ++ "/" ++ cfgName cfg ++ "/x86_64"),
                Ev.rmtreeF (MAC_LIB_DIR ++ "/" ++ cfgName cfg ++ "/arm64")]
      ∧ (createUniversalBinary w Platform.mac cfg).events.filterMap Ev.getCmd
          = (LIBS Platform.mac).map (lipoCmd cfg)
      ∧ ((LIBS Platform.mac).map (lipoCmd cfg)).Nodup := by
  have hval : (validateArchs Platform.mac ["x86_64", "arm64"]).exit = none := by decide
  have hloop := archLoop_exit hr hg Platform.mac cfg ["x86_64", "arm64"]
  have hcub : (createUniversalBinary w Platform.mac cfg).exit = none := by
    rw [createUniversalBinary_eval hr cfg]
  refine ⟨(validateArchs Platform.mac ["x86_64", "arm64"]).events
      ++ (setupDepotTools w).events
      ++ ((if winHost w then setupPython3OnWindows w else Out.ret) : Out).events
      ++ (setupSkiaRepo w br sh).events
      ++ ((if cfg = Config.Release then modifyDeps w else Out.ret) : Out).events
      ++ (syncDeps w).events
      ++ (forEachSeq (fun arch =>
            (generateGnArgsStep w Platform.mac cfg arch).seq <|
            (buildSkiaStep w Platform.mac cfg arch).seq <|
            moveLibsStep w Platform.mac cfg arch) ["x86_64", "arm64"]).events,
    ((packageHeadersStep w (BASE_DIR ++ "/include")).seq <|
      (writeGnArgsSummaryStep Platform.mac cfg ["x86_64", "arm64"]).seq <|
      (Out.emit [Ev.echo (completionMsg Platform.mac cfg ["x86_64", "arm64"])]).seq <|
      (if za then zipStep w else Out.ret).seq <|
      Out.emit [Ev.echo (completionMsg Platform.mac cfg ["x86_64", "arm64"])]).events,
    ?_, ?_, ?_, ?_⟩
  · rw [runPipeline]
    simp only [show (["x86_64", "arm64"].contains "universal" || false) = false from by decide,
      Bool.false_eq_true, reduceIte, true_and, eq_self_iff_true]
    rw [seq_events_of_none _ hval,
        seq_events_of_none _ (setupDepotTools_exit hr),
        seq_events_of_none _ (setupPython3_if_exit w),
        seq_events_of_none _ (setupSkiaRepo_exit hr br sh),
        seq_events_of_none _ (modifyDeps_if_exit hd cfg),
        seq_events_of_none _ (syncDeps_exit hr),
        seq_events_of_none _ hloop,
        seq_events_of_none _ hcub]
    simp only [List.append_assoc]
  · rw [createUniversalBinary_eval hr cfg]
  · rw [createUniversalBinary_eval hr cfg]
    cases cfg <;> decide
  · cases cfg <;> decide

-- C6: soundness of the header-packaging filter
mutual

theorem walkCopies_sound (pre : List String) (t : FTree) :
    ∀ rel ∈ walkCopies pre t,
      pre <+: rel
      ∧ (∃ u f, rel = u ++ [f] ∧ strEndsWith (".h") f = true)
      ∧ (∀ seg ∈ rel, seg ∉ DONT_PACKAGE) := by
  cases t with
  | node dirs files =>
      intro rel hrel
      rw [walkCopies] at hrel
      rcases List.mem_append.mp hrel with hmem | hmem
      · obtain ⟨f, hf, hin⟩ := List.mem_flatMap.mp hmem
        by_cases hc : (strEndsWith (".h") f
            && !(DONT_PACKAGE.any (fun ex => (pre ++ [f]).contains ex))) = true
        · rw [if_pos hc] at hin
          simp only [List.mem_singleton] at hin
          subst hin
          rw [Bool.and_eq_true] at hc
          refine ⟨⟨[f], rfl⟩, ⟨pre, f, rfl, hc.1⟩, ?_⟩
          intro seg hseg hdont
          have hany := hc.2
          simp only [Bool.not_eq_true', List.any_eq_false] at hany
          have := hany seg hdont
          exact this (List.elem_iff.mpr hseg)
        · rw [if_neg hc] at hin
          cases hin
      · exact walkSub_sound pre dirs rel hmem

theorem walkSub_sound (pre : List String) (ds : List (String × FTree)) :
    ∀ rel ∈ walkCopies.walkSub pre ds,
      pre <+: rel
      ∧ (∃ u f, rel = u ++ [f] ∧ strEndsWith (".h") f = true)
      ∧ (∀ seg ∈ rel, seg ∉ DONT_PACKAGE) := by
  cases ds with
  | nil =>
      intro rel hrel
      cases hrel
  | cons d ds' =>
      intro rel hrel
      rw [walkCopies.walkSub] at hrel
      rcases List.mem_append.mp hrel with hmem | hmem
      · by_cases hc : DONT_PACKAGE.contains d.1 = true
        · rw [if_pos hc] at hmem
          cases hmem
        · rw [if_neg hc] at hmem
          have h := walkCopies_sound (pre ++ [d.1]) d.2 rel hmem
          exact ⟨(List.prefix_append pre [d.1]).trans h.1, h.2.1, h.2.2⟩
      · exact walkSub_sound pre ds' rel hmem

end

/-- Claim C6: header packaging copies a file only if its name ends with
the header suffix, it lies under one of the allow-listed source
subdirectories, and no segment of its relative path is a deny-listed
directory name — in particular no file whose relative path contains a
deny-listed segment is ever copied. -/
theorem package_headers_filter (fs : String → Option FTree) :
    ∀ rel ∈ packageHeaders fs,
      (∃ d ∈ PACKAGE_DIRS, pathParts d <+: rel)
      ∧ (∃ u f, rel = u ++ [f] ∧ strEndsWith (".h") f = true)
      ∧ ∀ seg ∈ rel, seg ∉ DONT_PACKAGE := by
  intro rel hrel
  obtain ⟨d, hd, hmem⟩ := List.mem_flatMap.mp hrel
  cases hfs : fs d with
  | none => rw [hfs] at hmem; cases hmem
  | some t =>
      rw [hfs] at hmem
      have h := walkCopies_sound (pathParts d) t rel hmem
      exact ⟨⟨d, hd, h.1⟩, h.2.1, h.2.2⟩

/-- Claim C1 (amended): a non-zero exit status from the build-file
generator makes the process print the return code and the captured
stdout/stderr (but not the command line) and exit with status 1 after exactly
one invocation; a non-zero exit status from the parallel build executor makes
it print the failing command line and exit with status 1 after exactly one
invocation; a non-zero exit status from the framework-assembly tool prints
the failing command line and error details but is caught, and the process
continues (no termination). No tool is ever retried. -/
theorem external_tool_failure_modes (w : World) (p : Platform) (cfg : Config)
    (arch : String) (wh : Bool) :
    (w.gnExecExists = true → w.runRet (gnCmdOf w p cfg arch) ≠ 0 →
      (generateGnArgsStep w p cfg arch).exit = some 1
      ∧ Ev.echo ("Return code: " ++ toString (w.runRet (gnCmdOf w p cfg arch)))
          ∈ (generateGnArgsStep w p cfg arch).events
      ∧ Ev.echo ("stdout: " ++ w.runOut (gnCmdOf w p cfg arch))
          ∈ (generateGnArgsStep w p cfg arch).events
      ∧ Ev.echo ("stderr: " ++ w.runErr (gnCmdOf w p cfg arch))
          ∈ (generateGnArgsStep w p cfg arch).events
      ∧ (generateGnArgsStep w p cfg arch).events.filterMap Ev.getCmd = [gnCmdOf w p cfg arch])
    ∧ (w.runRet (ninjaCmdOf w p cfg arch) ≠ 0 →
      (buildSkiaStep w p cfg arch).exit = some 1
      ∧ Ev.echo ("Ninja command: " ++ joinWith " " (ninjaCmdOf w p cfg arch))
          ∈ (buildSkiaStep w p cfg arch).events
      ∧ (buildSkiaStep w p cfg arch).events.filterMap Ev.getCmd = [ninjaCmdOf w p cfg arch])
    ∧ (w.runRet (xcframeworkCmd wh) ≠ 0 →
      (createXcframework w wh).exit = none
      ∧ Ev.echo ("Command: " ++ joinWith " " (xcframeworkCmd wh))
          ∈ (createXcframework w wh).events
      ∧ Ev.cmd (xcframeworkCmd wh) ∈ (createXcframework w wh).events
      ∧ (createXcframework w wh).events.filterMap Ev.getCmd = [xcframeworkCmd wh]) :=
  ⟨fun hg hf => gn_failure w p cfg arch hg hf,
   fun hf => ninja_failure w p cfg arch hf,
   fun hf => xcode_failure w wh hf⟩

theorem external_tool_failure_modes_witness :
    worldAllFail.gnExecExists = true
    ∧ worldAllFail.runRet (gnCmdOf worldAllFail Platform.mac Config.Release "x86_64") ≠ 0
    ∧ worldAllFail.runRet (ninjaCmdOf worldAllFail Platform.mac Config.Release "x86_64") ≠ 0
    ∧ worldAllFail.runRet (xcframeworkCmd true) ≠ 0
    ∧ (generateGnArgsStep worldAllFail Platform.mac Config.Release "x86_64").exit = some 1
    ∧ (buildSkiaStep worldAllFail Platform.mac Config.Release "x86_64").exit = some 1
    ∧ (createXcframework worldAllFail true).exit = none :=
  ⟨rfl, by decide, by decide, by decide,
   ((external_tool_failure_modes worldAllFail Platform.mac Config.Release "x86_64" true).1
      rfl (by decide)).1,
   ((external_tool_failure_modes worldAllFail Platform.mac Config.Release "x86_64" true).2.1
      (by decide)).1,
   ((external_tool_failure_modes worldAllFail Platform.mac Config.Release "x86_64" true).2.2
      (by decide)).1⟩

/-- Claim C9 (spec-modelled): under the CPU-only variant the synthesized
flag entries are exactly the base table — no entry that occurs only in the
GPU-backend flag table is ever emitted — and the artifact collector's target
list is exactly the platform library list, never containing a
GPU-backend-only artifact. -/
theorem cpu_variant_excludes_gpu (baseTable gpuTable libs gpuLibs : List String) :
    synthFlagsV baseTable gpuTable Variant.cpu = baseTable
    ∧ (∀ e ∈ gpuTable, e ∉ baseTable → e ∉ synthFlagsV baseTable gpuTable Variant.cpu)
    ∧ collectTargetsV libs gpuLibs Variant.cpu = libs
    ∧ (∀ l ∈ gpuLibs, l ∉ libs → l ∉ collectTargetsV libs gpuLibs Variant.cpu) := by
  refine ⟨by simp [synthFlagsV], ?_, by simp [collectTargetsV], ?_⟩
  · intro e _ hnb
    simpa [synthFlagsV] using hnb
  · intro l _ hnl
    simpa [collectTargetsV] using hnl

theorem cpu_variant_excludes_gpu_witness :
    ("skia_use_dawn = true" ∈ ["skia_use_dawn = true"]
     ∧ "skia_use_dawn = true" ∉ ["skia_use_gl = true"])
    ∧ "skia_use_dawn = true"
        ∉ synthFlagsV ["skia_use_gl = true"] ["skia_use_dawn = true"] Variant.cpu :=
  ⟨⟨by decide, by decide⟩,
   (cpu_variant_excludes_gpu ["skia_use_gl = true"] ["skia_use_dawn = true"] [] []).2.1
     "skia_use_dawn = true" (by decide) (by decide)⟩

theorem universal_binary_step_witness :
    (∀ c, worldOk.runRet c = 0)
    ∧ worldOk.gnExecExists = true
    ∧ worldOk.depsFileExists = true
    ∧ (∃ pre post,
        (runPipeline ⟨Platform.mac, Config.Release, ["x86_64", "arm64"], false, "main",
            false, false⟩ worldOk).events
          = pre ++ (createUniversalBinary worldOk Platform.mac Config.Release).events ++ post
        ∧ (createUniversalBinary worldOk Platform.mac Config.Release).events
            = [Ev.echo "Creating universal files...",
               Ev.mkdirF (MAC_LIB_DIR ++ "/" ++ cfgName Config.Release)]
              ++ (LIBS Platform.mac).flatMap (fun lib =>
                   [Ev.cmd (lipoCmd Config.Release lib),
                    Ev.echo ("Created universal file: " ++ lib)])
              ++ [Ev.rmtreeF (MAC_LIB_DIR ++ "/" ++ cfgName Config.Release ++ "/x86_64"),
                  Ev.rmtreeF (MAC_LIB_DIR ++ "/" ++ cfgName Config.Release ++ "/arm64")]
        ∧ (createUniversalBinary worldOk Platform.mac Config.Release).events.filterMap Ev.getCmd
            = (LIBS Platform.mac).map (lipoCmd Config.Release)
        ∧ ((LIBS Platform.mac).map (lipoCmd Config.Release)).Nodup) :=
  ⟨fun _ => rfl, rfl, rfl,
   universal_binary_step Config.Release "main" false false worldOk (fun _ => rfl) rfl rfl⟩

theorem move_libs_best_effort_witness :
    ("libskia.a" ∈ LIBS Platform.mac
     ∧ worldOk.fileExists
         (outputDirOf Platform.mac Config.Release "x86_64" ++ "/" ++ "libskia.a") = true)
    ∧ Ev.copyF (outputDirOf Platform.mac Config.Release "x86_64" ++ "/" ++ "libskia.a")
        (destDirOf Platform.mac Config.Release "x86_64" ++ "/" ++ "libskia.a")
        ∈ (moveLibsStep worldOk Platform.mac Config.Release "x86_64").events
    ∧ Ev.unlinkF (outputDirOf Platform.mac Config.Release "x86_64" ++ "/" ++ "libskia.a")
        ∈ (moveLibsStep worldOk Platform.mac Config.Release "x86_64").events :=
  ⟨⟨by decide, rfl⟩,
   (((move_libs_best_effort worldOk Platform.mac Config.Release "x86_64").2 "libskia.a"
      (by decide)).1 rfl).1,
   (((move_libs_best_effort worldOk Platform.mac Config.Release "x86_64").2 "libskia.a"
      (by decide)).1 rfl).2⟩

theorem package_headers_filter_witness :
    ["include", "core", "SkCanvas.h"] ∈ packageHeaders fsSample
    ∧ ((∃ d ∈ PACKAGE_DIRS, pathParts d <+: ["include", "core", "SkCanvas.h"])
       ∧ (∃ u f, ["include", "core", "SkCanvas.h"] = u ++ [f] ∧ strEndsWith (".h") f = true)
       ∧ ∀ seg ∈ ["include", "core", "SkCanvas.h"], seg ∉ DONT_PACKAGE) :=
  ⟨by decide, package_headers_filter fsSample _ (by decide)⟩

end SkiaBuilder



